import Mathlib

/-!
Shallow embedding of the AES-128 ECB encryptor in `src/aes.cpp`.

Bytes are modelled as `Nat` (always kept below 256 by the operations,
mirroring `unsigned char` arithmetic with explicit `% 256` where the C
type would truncate).  The 4×4 state matrix is a `List (List Nat)` of
four rows of four bytes, indexed `state[row][col]` exactly as in the C
code.  Fallible array reads are total via `List.getD` with default `0`,
matching the fact that the C code never reads out of bounds on the
inputs it is run on.
-/

namespace Aes

/-- The 256-entry S-box table, transcribed from `sBox` in `src/aes.cpp`. -/
def sBox : List Nat := [
  0x63, 0x7c, 0x77, 0x7b, 0xf2, 0x6b, 0x6f, 0xc5, 0x30, 0x01, 0x67, 0x2b, 0xfe, 0xd7, 0xab, 0x76,
  0xca, 0x82, 0xc9, 0x7d, 0xfa, 0x59, 0x47, 0xf0, 0xad, 0xd4, 0xa2, 0xaf, 0x9c, 0xa4, 0x72, 0xc0,
  0xb7, 0xfd, 0x93, 0x26, 0x36, 0x3f, 0xf7, 0xcc, 0x34, 0xa5, 0xe5, 0xf1, 0x71, 0xd8, 0x31, 0x15,
  0x04, 0xc7, 0x23, 0xc3, 0x18, 0x96, 0x05, 0x9a, 0x07, 0x12, 0x80, 0xe2, 0xeb, 0x27, 0xb2, 0x75,
  0x09, 0x83, 0x2c, 0x1a, 0x1b, 0x6e, 0x5a, 0xa0, 0x52, 0x3b, 0xd6, 0xb3, 0x29, 0xe3, 0x2f, 0x84,
  0x53, 0xd1, 0x00, 0xed, 0x20, 0xfc, 0xb1, 0x5b, 0x6a, 0xcb, 0xbe, 0x39, 0x4a, 0x4c, 0x58, 0xcf,
  0xd0, 0xef, 0xaa, 0xfb, 0x43, 0x4d, 0x33, 0x85, 0x45, 0xf9, 0x02, 0x7f, 0x50, 0x3c, 0x9f, 0xa8,
  0x51, 0xa3, 0x40, 0x8f, 0x92, 0x9d, 0x38, 0xf5, 0xbc, 0xb6, 0xda, 0x21, 0x10, 0xff, 0xf3, 0xd2,
  0xcd, 0x0c, 0x13, 0xec, 0x5f, 0x97, 0x44, 0x17, 0xc4, 0xa7, 0x7e, 0x3d, 0x64, 0x5d, 0x19, 0x73,
  0x60, 0x81, 0x4f, 0xdc, 0x22, 0x2a, 0x90, 0x88, 0x46, 0xee, 0xb8, 0x14, 0xde, 0x5e, 0x0b, 0xdb,
  0xe0, 0x32, 0x3a, 0x0a, 0x49, 0x06, 0x24, 0x5c, 0xc2, 0xd3, 0xac, 0x62, 0x91, 0x95, 0xe4, 0x79,
  0xe7, 0xc8, 0x37, 0x6d, 0x8d, 0xd5, 0x4e, 0xa9, 0x6c, 0x56, 0xf4, 0xea, 0x65, 0x7a, 0xae, 0x08,
  0xba, 0x78, 0x25, 0x2e, 0x1c, 0xa6, 0xb4, 0xc6, 0xe8, 0xdd, 0x74, 0x1f, 0x4b, 0xbd, 0x8b, 0x8a,
  0x70, 0x3e, 0xb5, 0x66, 0x48, 0x03, 0xf6, 0x0e, 0x61, 0x35, 0x57, 0xb9, 0x86, 0xc1, 0x1d, 0x9e,
  0xe1, 0xf8, 0x98, 0x11, 0x69, 0xd9, 0x8e, 0x94, 0x9b, 0x1e, 0x87, 0xe9, 0xce, 0x55, 0x28, 0xdf,
  0x8c, 0xa1, 0x89, 0x0d, 0xbf, 0xe6, 0x42, 0x68, 0x41, 0x99, 0x2d, 0x0f, 0xb0, 0x54, 0xbb, 0x16]

/-- The 256-entry round-constant table, transcribed from `rcon` in `src/aes.cpp`. -/
def rcon : List Nat := [
  0x8d, 0x01, 0x02, 0x04, 0x08, 0x10, 0x20, 0x40, 0x80, 0x1b, 0x36, 0x6c, 0xd8, 0xab, 0x4d, 0x9a,
  0x2f, 0x5e, 0xbc, 0x63, 0xc6, 0x97, 0x35, 0x6a, 0xd4, 0xb3, 0x7d, 0xfa, 0xef, 0xc5, 0x91, 0x39,
  0x72, 0xe4, 0xd3, 0xbd, 0x61, 0xc2, 0x9f, 0x25, 0x4a, 0x94, 0x33, 0x66, 0xcc, 0x83, 0x1d, 0x3a,
  0x74, 0xe8, 0xcb, 0x8d, 0x01, 0x02, 0x04, 0x08, 0x10, 0x20, 0x40, 0x80, 0x1b, 0x36, 0x6c, 0xd8,
  0xab, 0x4d, 0x9a, 0x2f, 0x5e, 0xbc, 0x63, 0xc6, 0x97, 0x35, 0x6a, 0xd4, 0xb3, 0x7d, 0xfa, 0xef,
  0xc5, 0x91, 0x39, 0x72, 0xe4, 0xd3, 0xbd, 0x61, 0xc2, 0x9f, 0x25, 0x4a, 0x94, 0x33, 0x66, 0xcc,
  0x83, 0x1d, 0x3a, 0x74, 0xe8, 0xcb, 0x8d, 0x01, 0x02, 0x04, 0x08, 0x10, 0x20, 0x40, 0x80, 0x1b,
  0x36, 0x6c, 0xd8, 0xab, 0x4d, 0x9a, 0x2f, 0x5e, 0xbc, 0x63, 0xc6, 0x97, 0x35, 0x6a, 0xd4, 0xb3,
  0x7d, 0xfa, 0xef, 0xc5, 0x91, 0x39, 0x72, 0xe4, 0xd3, 0xbd, 0x61, 0xc2, 0x9f, 0x25, 0x4a, 0x94,
  0x33, 0x66, 0xcc, 0x83, 0x1d, 0x3a, 0x74, 0xe8, 0xcb, 0x8d, 0x01, 0x02, 0x04, 0x08, 0x10, 0x20,
  0x40, 0x80, 0x1b, 0x36, 0x6c, 0xd8, 0xab, 0x4d, 0x9a, 0x2f, 0x5e, 0xbc, 0x63, 0xc6, 0x97, 0x35,
  0x6a, 0xd4, 0xb3, 0x7d, 0xfa, 0xef, 0xc5, 0x91, 0x39, 0x72, 0xe4, 0xd3, 0xbd, 0x61, 0xc2, 0x9f,
  0x25, 0x4a, 0x94, 0x33, 0x66, 0xcc, 0x83, 0x1d, 0x3a, 0x74, 0xe8, 0xcb, 0x8d, 0x01, 0x02, 0x04,
  0x08, 0x10, 0x20, 0x40, 0x80, 0x1b, 0x36, 0x6c, 0xd8, 0xab, 0x4d, 0x9a, 0x2f, 0x5e, 0xbc, 0x63,
  0xc6, 0x97, 0x35, 0x6a, 0xd4, 0xb3, 0x7d, 0xfa, 0xef, 0xc5, 0x91, 0x39, 0x72, 0xe4, 0xd3, 0xbd,
  0x61, 0xc2, 0x9f, 0x25, 0x4a, 0x94, 0x33, 0x66, 0xcc, 0x83, 0x1d, 0x3a, 0x74, 0xe8, 0xcb, 0x8d]

/-- S-box lookup `sBox[x]` as used throughout `src/aes.cpp`. -/
def sbox (x : Nat) : Nat := sBox.getD x 0

/-- Embedding of `key_schedule_core` from `src/aes.cpp` (lines 73-88): rotate the 4-byte
word left by one, pass each byte through the S-box, then XOR the left-most
byte with `rcon[rcon_i]`. -/
def key_schedule_core (t : List Nat) (rcon_i : Nat) : List Nat :=
  let rotated := [t.getD 1 0, t.getD 2 0, t.getD 3 0, t.getD 0 0]
  let subbed := rotated.map sbox
  match subbed with
  | b :: rest => (b ^^^ rcon.getD rcon_i 0) :: rest
  | [] => []

/-- The body of one iteration of the expansion loop of `expandKey` in
`src/aes.cpp` (lines 103-117), phrased on the bytes produced so far:
`current_size_of_key` is the length of `expanded_key`, `t` holds the
previous 4 bytes, the core transform is applied when the current size is a
multiple of the 16-byte key size, and the 4 bytes appended are
`expanded_key[cur - 16 + i] ^ t[i]` for `i = 0..3`. -/
def nextWordBytes (expanded_key : List Nat) (rcon_i : Nat) : List Nat :=
  let cur := expanded_key.length
  let t := [expanded_key.getD (cur - 4) 0, expanded_key.getD (cur - 3) 0,
            expanded_key.getD (cur - 2) 0, expanded_key.getD (cur - 1) 0]
  let t2 := if cur % 16 = 0 then key_schedule_core t rcon_i else t
  [expanded_key.getD (cur - 16) 0 ^^^ t2.getD 0 0,
   expanded_key.getD (cur + 1 - 16) 0 ^^^ t2.getD 1 0,
   expanded_key.getD (cur + 2 - 16) 0 ^^^ t2.getD 2 0,
   expanded_key.getD (cur + 3 - 16) 0 ^^^ t2.getD 3 0]

/-- The `rcon_i` counter after one loop iteration: it is bumped exactly when
the iteration applied the core transform. -/
def nextRcon (expanded_key : List Nat) (rcon_i : Nat) : Nat :=
  if expanded_key.length % 16 = 0 then rcon_i + 1 else rcon_i

/-- One-`while`-iteration-at-a-time embedding of the expansion loop of
`expandKey` in `src/aes.cpp` (lines 103-117): run `n` more iterations, each
appending the 4 bytes computed by `nextWordBytes` and updating `rcon_i`. -/
def expandKeyAux : Nat → List Nat → Nat → List Nat
  | 0, expanded_key, _ => expanded_key
  | n + 1, expanded_key, rcon_i =>
    expandKeyAux n (expanded_key ++ nextWordBytes expanded_key rcon_i)
      (nextRcon expanded_key rcon_i)

/-- Embedding of `expandKey(key, 16, expanded_key, 176)` from `src/aes.cpp` (lines 93-118):
copy the 16 key bytes, then run the expansion loop until 176 bytes exist,
i.e. (176 - 16) / 4 = 40 iterations, starting with `rcon_i = 1`. -/
def expandKey (key : List Nat) : List Nat := expandKeyAux 40 key 1

/-- Embedding of `populateState` from `src/aes.cpp` (lines 121-127):
`state[j][i] = to_encrypt[j + 4*i]` (column-major). -/
def populateState (to_encrypt : List Nat) : List (List Nat) :=
  (List.range 4).map (fun j => (List.range 4).map (fun i => to_encrypt.getD (j + 4 * i) 0))

/-- Embedding of `populateRoundKey` from `src/aes.cpp` (lines 130-137):
`round_key[j][i] = expanded_key[16*iter + j + 4*i]`. -/
def populateRoundKey (expanded_key : List Nat) (iter : Nat) : List (List Nat) :=
  (List.range 4).map (fun j =>
    (List.range 4).map (fun i => expanded_key.getD (16 * iter + j + 4 * i) 0))

/-- Embedding of `populateOutput` from `src/aes.cpp` (lines 140-147):
`cipher[j + 4*i] = state[j][i]`, so output byte `n` is `state[n % 4][n / 4]`. -/
def populateOutput (state : List (List Nat)) : List Nat :=
  (List.range 16).map (fun n => (state.getD (n % 4) []).getD (n / 4) 0)

/-- Embedding of `subBytes` from `src/aes.cpp` (lines 150-159): every byte of the 4×4
state is replaced by its S-box image. -/
def subBytes (state : List (List Nat)) : List (List Nat) :=
  state.map (fun row => row.map sbox)

/-- Embedding of `shiftRows` from `src/aes.cpp` (lines 165-191), with each of the three
shifted rows written exactly as the chains of assignments produce them. -/
def shiftRows (state : List (List Nat)) : List (List Nat) :=
  let r0 := state.getD 0 []
  let r1 := state.getD 1 []
  let r2 := state.getD 2 []
  let r3 := state.getD 3 []
  [r0,
   [r1.getD 1 0, r1.getD 2 0, r1.getD 3 0, r1.getD 0 0],
   [r2.getD 2 0, r2.getD 3 0, r2.getD 0 0, r2.getD 1 0],
   [r3.getD 3 0, r3.getD 0 0, r3.getD 1 0, r3.getD 2 0]]

/-- Embedding of `addRoundKey` from `src/aes.cpp` (lines 194-201):
`state[i][j] = state[i][j] ^ round_key[i][j]`. -/
def addRoundKey (state round_key : List (List Nat)) : List (List Nat) :=
  (List.range 4).map (fun i =>
    (List.range 4).map (fun j =>
      (state.getD i []).getD j 0 ^^^ (round_key.getD i []).getD j 0))

/-- Embedding of `mixSingleColumn` from `src/aes.cpp` (lines 205-225): `a` copies the
column, `b c` is `a c` doubled in GF(2^8) (`unsigned char` left shift, then
XOR with `0x1B` masked by `0xFF` exactly when the high bit was set), and the
output bytes are the XOR chains written in the source. -/
def mixSingleColumn (r : List Nat) : List Nat :=
  let a := fun c => r.getD c 0 % 256
  let b := fun c => ((a c <<< 1) % 256) ^^^ (0x1B &&& (if 128 ≤ a c then 0xFF else 0))
  [b 0 ^^^ a 3 ^^^ a 2 ^^^ b 1 ^^^ a 1,
   b 1 ^^^ a 0 ^^^ a 3 ^^^ b 2 ^^^ a 2,
   b 2 ^^^ a 1 ^^^ a 0 ^^^ b 3 ^^^ a 3,
   b 3 ^^^ a 2 ^^^ a 1 ^^^ b 0 ^^^ a 0]

/-- Column `i` of the state, the `temp` buffer built by `mixColumns`. -/
def stateCol (state : List (List Nat)) (i : Nat) : List Nat :=
  [(state.getD 0 []).getD i 0, (state.getD 1 []).getD i 0,
   (state.getD 2 []).getD i 0, (state.getD 3 []).getD i 0]

/-- Embedding of `mixColumns` from `src/aes.cpp` (lines 228-244): each column is copied
out, mixed by `mixSingleColumn`, and written back. -/
def mixColumns (state : List (List Nat)) : List (List Nat) :=
  (List.range 4).map (fun j =>
    (List.range 4).map (fun i => (mixSingleColumn (stateCol state i)).getD j 0))

/-- The per-block encryption pipeline of `main` in `src/aes.cpp`
(lines 293-319): initial AddRoundKey with round-key block 0, the
`for(iter = 1; iter < 10; ...)` loop of full rounds, the final round without
MixColumns using round-key block 10, then conversion back to bytes. -/
def encryptBlock (expanded_key : List Nat) (to_encrypt : List Nat) : List Nat :=
  let s0 := addRoundKey (populateState to_encrypt) (populateRoundKey expanded_key 0)
  let s9 := (List.range' 1 9).foldl
    (fun s iter => addRoundKey (mixColumns (shiftRows (subBytes s)))
      (populateRoundKey expanded_key iter)) s0
  let sf := addRoundKey (shiftRows (subBytes s9)) (populateRoundKey expanded_key 10)
  populateOutput sf

/-- Full single-block encryption: key expansion followed by the block pipeline. -/
def aesEncrypt (key block : List Nat) : List Nat :=
  encryptBlock (expandKey key) block

/-- The block chunking performed by `while(cin.read(block,16))` in `main`:
each successful read yields a full 16-byte block; a final read that cannot
deliver 16 bytes fails and ends the loop, leaving the trailing bytes unused. -/
def chunkBlocks (bytes : List Nat) : List (List Nat) :=
  if _h : 16 ≤ bytes.length then bytes.take 16 :: chunkBlocks (bytes.drop 16) else []
termination_by bytes.length
decreasing_by simp; omega

/-- End-to-end behavior of `main` in `src/aes.cpp` on a byte stream: the
first 16 bytes are the key, every following complete 16-byte block is
encrypted under the expanded key, and the ciphertext blocks are emitted in
order with nothing else. -/
def processStream (input : List Nat) : List Nat :=
  ((chunkBlocks (input.drop 16)).map (aesEncrypt (input.take 16))).flatten

/-! ### Spec-side definitions

These definitions are written from the wording of the specification, to be
compared with the source-derived definitions above. -/

/-- Spec-side full round `r`: SubBytes, ShiftRows, MixColumns,
AddRoundKey(round-key block `r`), in that fixed order. -/
def specRound (expanded_key : List Nat) (r : Nat) (s : List (List Nat)) : List (List Nat) :=
  addRoundKey (mixColumns (shiftRows (subBytes s))) (populateRoundKey expanded_key r)

/-- Spec-side iteration of the full rounds: `specRounds ek r s` applies
rounds `1, 2, ..., r` to `s` in ascending order. -/
def specRounds (expanded_key : List Nat) : Nat → List (List Nat) → List (List Nat)
  | 0, s => s
  | r + 1, s => specRound expanded_key (r + 1) (specRounds expanded_key r s)

/-- Spec-side final round: SubBytes, ShiftRows, AddRoundKey(round-key
block 10), with no MixColumns. -/
def specFinalRound (expanded_key : List Nat) (s : List (List Nat)) : List (List Nat) :=
  addRoundKey (shiftRows (subBytes s)) (populateRoundKey expanded_key 10)

/-- Spec-side encryption pipeline: initial AddRoundKey with round-key
block 0, rounds 1..9, then the final round, as the round-driver state
machine of the specification prescribes. -/
def encryptBlockSpec (expanded_key block : List Nat) : List Nat :=
  populateOutput (specFinalRound expanded_key
    (specRounds expanded_key 9
      (addRoundKey (populateState block) (populateRoundKey expanded_key 0))))

/-- Spec-side GF(2^8) doubling of a byte: shift left within the byte and
XOR with `0x1B` exactly when the high bit was set. -/
def specDouble (x : Nat) : Nat :=
  ((x <<< 1) % 256) ^^^ (if 128 ≤ x then 0x1B else 0)

/-- Spec-side GF(2^8) multiplication of a byte by 3: doubling XOR the
original byte. -/
def specTriple (x : Nat) : Nat := specDouble x ^^^ x

/-- Spec-side MixColumns on one column `r`:
`r'[0] = 2·r[0] ⊕ 3·r[1] ⊕ r[2] ⊕ r[3]` and cyclically shifted
coefficients for the remaining bytes. -/
def specMixColumn (r : List Nat) : List Nat :=
  [specDouble (r.getD 0 0) ^^^ specTriple (r.getD 1 0) ^^^ r.getD 2 0 ^^^ r.getD 3 0,
   specDouble (r.getD 1 0) ^^^ specTriple (r.getD 2 0) ^^^ r.getD 3 0 ^^^ r.getD 0 0,
   specDouble (r.getD 2 0) ^^^ specTriple (r.getD 3 0) ^^^ r.getD 0 0 ^^^ r.getD 1 0,
   specDouble (r.getD 3 0) ^^^ specTriple (r.getD 0 0) ^^^ r.getD 1 0 ^^^ r.getD 2 0]

/-! ### Helper lemmas -/

/-- A default-0 read out of a list of bytes is a byte. -/
theorem getD_lt_256 (l : List Nat) (n : Nat) (h : ∀ x ∈ l, x < 256) :
    l.getD n 0 < 256 := by
  induction l generalizing n with
  | nil => simp [List.getD]
  | cons a t ih =>
    cases n with
    | zero => exact h a (by simp)
    | succ m => simpa using ih m (fun x hx => h x (by simp [hx]))

/-- A list of length 4 is a literal 4-element list. -/
theorem exists_four (l : List Nat) (h : l.length = 4) :
    ∃ a b c d, l = [a, b, c, d] := by
  cases l with
  | nil => simp at h
  | cons a l =>
    cases l with
    | nil => simp at h
    | cons b l =>
      cases l with
      | nil => simp at h
      | cons c l =>
        cases l with
        | nil => simp at h
        | cons d l =>
          cases l with
          | nil => exact ⟨a, b, c, d, rfl⟩
          | cons e l => simp at h

/-- Reading a list back off by index reconstructs it. -/
theorem map_getD_range (n : Nat) (l : List Nat) (h : l.length = n) :
    (List.range n).map (fun k => l.getD k 0) = l := by
  apply List.ext_getElem
  · simp [h]
  · intro i h1 h2
    simp only [List.getElem_map, List.getElem_range]
    rw [List.getD_eq_getElem]

/-- XOR on `Nat` commutes past one argument. -/
theorem xor_left_comm (a b c : Nat) : a ^^^ (b ^^^ c) = b ^^^ (a ^^^ c) := by
  rw [← Nat.xor_assoc, Nat.xor_comm a b, Nat.xor_assoc]

/-- Masking `0xFF`/`0x00` with `0x1B` is selecting `0x1B`/`0x00`. -/
theorem and_mask_27 (c : Prop) [Decidable c] :
    27 &&& (if c then 255 else 0) = (if c then 27 else 0) := by
  split <;> decide

/-- Every byte of a state row read through the adapter defaults is a byte. -/
theorem row_bytes_lt (s : List (List Nat)) (hb : ∀ row ∈ s, ∀ x ∈ row, x < 256)
    (j : Nat) : ∀ x ∈ s.getD j [], x < 256 := by
  rcases Nat.lt_or_ge j s.length with hj | hj
  · rw [List.getD_eq_getElem _ _ hj]
    exact hb _ (List.getElem_mem hj)
  · rw [List.getD_eq_default _ _ hj]
    simp

/-- Every byte of a column of a byte-valued state is a byte. -/
theorem stateCol_bytes_lt (s : List (List Nat)) (hb : ∀ row ∈ s, ∀ x ∈ row, x < 256)
    (i : Nat) : ∀ x ∈ stateCol s i, x < 256 := by
  intro x hx
  simp only [stateCol, List.mem_cons, List.not_mem_nil, or_false] at hx
  rcases hx with rfl | rfl | rfl | rfl
  · exact getD_lt_256 _ _ (row_bytes_lt s hb 0)
  · exact getD_lt_256 _ _ (row_bytes_lt s hb 1)
  · exact getD_lt_256 _ _ (row_bytes_lt s hb 2)
  · exact getD_lt_256 _ _ (row_bytes_lt s hb 3)

/-- On a column of bytes, the source's `mixSingleColumn` computes exactly the
matrix-product formula of the specification. -/
theorem mixSingleColumn_spec (r : List Nat) (h : ∀ x ∈ r, x < 256) :
    mixSingleColumn r = specMixColumn r := by
  have h0 : r.getD 0 0 % 256 = r.getD 0 0 := Nat.mod_eq_of_lt (getD_lt_256 r 0 h)
  have h1 : r.getD 1 0 % 256 = r.getD 1 0 := Nat.mod_eq_of_lt (getD_lt_256 r 1 h)
  have h2 : r.getD 2 0 % 256 = r.getD 2 0 := Nat.mod_eq_of_lt (getD_lt_256 r 2 h)
  have h3 : r.getD 3 0 % 256 = r.getD 3 0 := Nat.mod_eq_of_lt (getD_lt_256 r 3 h)
  simp only [mixSingleColumn, specMixColumn, specTriple, specDouble, h0, h1, h2, h3,
    and_mask_27, List.cons.injEq, and_true]
  refine ⟨?_, ?_, ?_, ?_⟩ <;>
    simp [Nat.xor_assoc, Nat.xor_comm, xor_left_comm]

/-- One loop iteration of the key schedule always appends 4 bytes. -/
theorem nextWordBytes_length (ek : List Nat) (r : Nat) :
    (nextWordBytes ek r).length = 4 := rfl

/-- Each expansion-loop iteration grows the expanded key by 4 bytes. -/
theorem expandKeyAux_length (n : Nat) :
    ∀ ek r, (expandKeyAux n ek r).length = ek.length + 4 * n := by
  induction n with
  | zero => intro ek r; simp [expandKeyAux]
  | succ m ih =>
    intro ek r
    rw [expandKeyAux, ih]
    simp [List.length_append, nextWordBytes_length]
    omega

/-- The expansion loop never rewrites the bytes already produced. -/
theorem take_expandKeyAux (n : Nat) :
    ∀ ek r m, m ≤ ek.length → (expandKeyAux n ek r).take m = ek.take m := by
  induction n with
  | zero => intro ek r m _; rfl
  | succ k ih =>
    intro ek r m hm
    rw [expandKeyAux]
    rw [ih _ _ m (by simp [List.length_append]; omega)]
    exact List.take_append_of_le_length hm

/-- The per-block pipeline always emits exactly 16 bytes. -/
theorem encryptBlock_length (ek b : List Nat) : (encryptBlock ek b).length = 16 := by
  simp [encryptBlock, populateOutput]

/-- Unfolding `chunkBlocks` when a full block is available. -/
theorem chunkBlocks_cons (l : List Nat) (h : 16 ≤ l.length) :
    chunkBlocks l = l.take 16 :: chunkBlocks (l.drop 16) := by
  conv_lhs => rw [chunkBlocks]
  rw [dif_pos h]

/-- Unfolding `chunkBlocks` when fewer than 16 bytes remain. -/
theorem chunkBlocks_nil (l : List Nat) (h : l.length < 16) :
    chunkBlocks l = [] := by
  rw [chunkBlocks, dif_neg (by omega)]

/-- Chunking yields one block per full 16 bytes, fuel-indexed version. -/
theorem chunkBlocks_length_aux (n : Nat) :
    ∀ l : List Nat, l.length ≤ n → (chunkBlocks l).length = l.length / 16 := by
  induction n with
  | zero =>
    intro l h
    rw [chunkBlocks_nil l (by omega)]
    simp
    omega
  | succ m ih =>
    intro l h
    by_cases h16 : 16 ≤ l.length
    · rw [chunkBlocks_cons l h16]
      simp only [List.length_cons, ih (l.drop 16) (by simp; omega), List.length_drop]
      omega
    · rw [chunkBlocks_nil l (by omega)]
      simp
      omega

/-- Chunking yields one block per full 16 bytes of input. -/
theorem chunkBlocks_length (l : List Nat) : (chunkBlocks l).length = l.length / 16 :=
  chunkBlocks_length_aux l.length l (Nat.le_refl _)

/-- Truncating the input to its complete blocks does not change the
chunking, fuel-indexed version. -/
theorem chunkBlocks_take_aux (n : Nat) :
    ∀ l : List Nat, l.length ≤ n →
      chunkBlocks (l.take (16 * (l.length / 16))) = chunkBlocks l := by
  induction n with
  | zero =>
    intro l h
    have hz : l.length = 0 := by omega
    simp [List.take_of_length_le, hz]
  | succ m ih =>
    intro l h
    by_cases h16 : 16 ≤ l.length
    · have hq : 16 ≤ 16 * (l.length / 16) := by omega
      have hq2 : 16 * (l.length / 16) ≤ l.length := by omega
      rw [chunkBlocks_cons _ (by simp [List.length_take]; omega)]
      rw [chunkBlocks_cons l h16]
      congr 1
      · rw [List.take_take]
        congr 1
        omega
      · rw [List.drop_take]
        have harith : 16 * (l.length / 16) - 16 = 16 * ((l.drop 16).length / 16) := by
          simp [List.length_drop]
          omega
        rw [harith]
        exact ih (l.drop 16) (by simp; omega)
    · rw [chunkBlocks_nil l (by omega)]
      have hz : l.length / 16 = 0 := by omega
      rw [hz]
      simp [chunkBlocks_nil]

/-- The output stream carries 16 bytes per encrypted block. -/
theorem flatten_map_aes_length (key : List Nat) (bs : List (List Nat)) :
    ((bs.map (aesEncrypt key)).flatten).length = 16 * bs.length := by
  induction bs with
  | nil => simp
  | cons b t ih =>
    simp only [List.map_cons, List.flatten_cons, List.length_append, ih, List.length_cons]
    have hb : (aesEncrypt key b).length = 16 := encryptBlock_length _ _
    omega

/-! ### Spec-side key schedule (claim C3 wording) -/

/-- Core transform as the specification words it: rotate the 4 bytes of the
word left by one position, substitute every byte through the S-box, and XOR
only the first byte with `Rcon[j]`. -/
def specCoreWord (t : List Nat) (j : Nat) : List Nat :=
  let subbed := [sbox (t.getD 1 0), sbox (t.getD 2 0), sbox (t.getD 3 0), sbox (t.getD 0 0)]
  [subbed.getD 0 0 ^^^ rcon.getD j 0, subbed.getD 1 0, subbed.getD 2 0, subbed.getD 3 0]

/-- Byte-wise XOR of two 4-byte words. -/
def xorWord (a b : List Nat) : List Nat :=
  [a.getD 0 0 ^^^ b.getD 0 0, a.getD 1 0 ^^^ b.getD 1 0,
   a.getD 2 0 ^^^ b.getD 2 0, a.getD 3 0 ^^^ b.getD 3 0]

/-- Word `w` of the Rijndael key schedule as the specification words it:
words 0-3 are the key verbatim; for `w ≥ 4`, `temp` is word `w - 1`,
transformed by the core transform with Rcon index `w / 4` when
`w mod 4 = 0` (the index used by the `k`-th core application is `k`,
starting at 1, and cores are applied exactly at `w = 4, 8, ...`), and word
`w` is word `w - 4` XOR `temp`. -/
def specWord (key : List Nat) : Nat → List Nat
  | w =>
    if w < 4 then (key.drop (4 * w)).take 4
    else
      let temp := specWord key (w - 1)
      let temp2 := if w % 4 = 0 then specCoreWord temp (w / 4) else temp
      xorWord (specWord key (w - 4)) temp2
termination_by w => w
decreasing_by all_goals omega

/-- Concatenation of the first `m` schedule words. -/
def specBytes (key : List Nat) (m : Nat) : List Nat :=
  ((List.range m).map (specWord key)).flatten

/-- The full 44-word (176-byte) expanded key as the specification words it. -/
def specExpandedKey (key : List Nat) : List Nat := specBytes key 44

/-- Every schedule word holds 4 bytes. -/
theorem specWord_length (key : List Nat) (h : key.length = 16) (w : Nat) :
    (specWord key w).length = 4 := by
  rw [specWord]
  split
  · simp [List.length_take, List.length_drop, h]
    omega
  · simp [xorWord]

/-- Peeling the last word off a word-prefix of the schedule. -/
theorem specBytes_succ (key : List Nat) (m : Nat) :
    specBytes key (m + 1) = specBytes key m ++ specWord key m := by
  simp [specBytes, List.range_succ]

/-- A word-prefix of the schedule holds 4 bytes per word. -/
theorem specBytes_length (key : List Nat) (h : key.length = 16) (m : Nat) :
    (specBytes key m).length = 4 * m := by
  induction m with
  | zero => simp [specBytes]
  | succ k ih =>
    rw [specBytes_succ, List.length_append, ih, specWord_length key h]
    omega

/-- Byte `i` of word `j` inside a word-prefix of the schedule. -/
theorem specBytes_getD (key : List Nat) (h : key.length = 16) (m j i : Nat)
    (hj : j < m) (hi : i < 4) :
    (specBytes key m).getD (4 * j + i) 0 = (specWord key j).getD i 0 := by
  induction m with
  | zero => omega
  | succ k ih =>
    rw [specBytes_succ]
    rcases Nat.lt_or_ge j k with hjk | hjk
    · rw [List.getD_append _ _ _ _ (by rw [specBytes_length key h]; omega)]
      exact ih hjk
    · have hjeq : j = k := by omega
      subst hjeq
      rw [List.getD_append_right _ _ _ _ (by rw [specBytes_length key h]; omega)]
      rw [specBytes_length key h]
      congr 1
      omega

/-- One iteration of the source's expansion loop, run on the first `m` words
of the schedule with the rcon counter it reaches there, produces exactly
schedule word `m`. -/
theorem nextWordBytes_spec (key : List Nat) (h : key.length = 16) (m : Nat) (hm : 4 ≤ m) :
    nextWordBytes (specBytes key m) ((m + 3) / 4) = specWord key m := by
  have hlen := specBytes_length key h m
  have ht0 : (specBytes key m).getD (4 * m - 4) 0 = (specWord key (m - 1)).getD 0 0 := by
    rw [show 4 * m - 4 = 4 * (m - 1) + 0 from by omega]
    exact specBytes_getD key h m (m - 1) 0 (by omega) (by omega)
  have ht1 : (specBytes key m).getD (4 * m - 3) 0 = (specWord key (m - 1)).getD 1 0 := by
    rw [show 4 * m - 3 = 4 * (m - 1) + 1 from by omega]
    exact specBytes_getD key h m (m - 1) 1 (by omega) (by omega)
  have ht2 : (specBytes key m).getD (4 * m - 2) 0 = (specWord key (m - 1)).getD 2 0 := by
    rw [show 4 * m - 2 = 4 * (m - 1) + 2 from by omega]
    exact specBytes_getD key h m (m - 1) 2 (by omega) (by omega)
  have ht3 : (specBytes key m).getD (4 * m - 1) 0 = (specWord key (m - 1)).getD 3 0 := by
    rw [show 4 * m - 1 = 4 * (m - 1) + 3 from by omega]
    exact specBytes_getD key h m (m - 1) 3 (by omega) (by omega)
  have hf0 : (specBytes key m).getD (4 * m - 16) 0 = (specWord key (m - 4)).getD 0 0 := by
    rw [show 4 * m - 16 = 4 * (m - 4) + 0 from by omega]
    exact specBytes_getD key h m (m - 4) 0 (by omega) (by omega)
  have hf1 : (specBytes key m).getD (4 * m - 15) 0 = (specWord key (m - 4)).getD 1 0 := by
    rw [show 4 * m - 15 = 4 * (m - 4) + 1 from by omega]
    exact specBytes_getD key h m (m - 4) 1 (by omega) (by omega)
  have hf2 : (specBytes key m).getD (4 * m - 14) 0 = (specWord key (m - 4)).getD 2 0 := by
    rw [show 4 * m - 14 = 4 * (m - 4) + 2 from by omega]
    exact specBytes_getD key h m (m - 4) 2 (by omega) (by omega)
  have hf3 : (specBytes key m).getD (4 * m - 13) 0 = (specWord key (m - 4)).getD 3 0 := by
    rw [show 4 * m - 13 = 4 * (m - 4) + 3 from by omega]
    exact specBytes_getD key h m (m - 4) 3 (by omega) (by omega)
  simp only [List.getD_eq_getElem?_getD] at ht0 ht1 ht2 ht3 hf0 hf1 hf2 hf3
  conv_rhs => rw [specWord]
  rw [if_neg (show ¬ m < 4 from by omega)]
  simp only [nextWordBytes, hlen]
  by_cases hc : m % 4 = 0
  · rw [if_pos (show 4 * m % 16 = 0 from by omega), if_pos hc]
    rw [show (m + 3) / 4 = m / 4 from by omega]
    simp [key_schedule_core, specCoreWord, xorWord, ht0, ht1, ht2, ht3, hf0, hf1, hf2, hf3,
      List.getD]
  · rw [if_neg (show ¬ 4 * m % 16 = 0 from by omega), if_neg hc]
    simp [xorWord, ht0, ht1, ht2, ht3, hf0, hf1, hf2, hf3, List.getD]

/-- Loop invariant of the key expansion: starting from the first `m` words
and the matching rcon counter, `n` iterations extend the buffer to the
first `m + n` words of the schedule. -/
theorem expandKeyAux_spec (key : List Nat) (h : key.length = 16) (n : Nat) :
    ∀ m, 4 ≤ m → expandKeyAux n (specBytes key m) ((m + 3) / 4) = specBytes key (m + n) := by
  induction n with
  | zero => intro m hm; simp [expandKeyAux]
  | succ k ih =>
    intro m hm
    rw [expandKeyAux]
    rw [nextWordBytes_spec key h m hm]
    rw [← specBytes_succ]
    have hr : nextRcon (specBytes key m) ((m + 3) / 4) = (m + 1 + 3) / 4 := by
      rw [nextRcon, specBytes_length key h]
      by_cases hc : m % 4 = 0
      · rw [if_pos (by omega)]; omega
      · rw [if_neg (by omega)]; omega
    rw [hr]
    rw [ih (m + 1) (by omega)]
    congr 1
    omega

/-- The first 4 schedule words are exactly the 16 key bytes. -/
theorem specBytes_four (key : List Nat) (h : key.length = 16) :
    specBytes key 4 = key := by
  have e0 : specWord key 0 = (key.drop 0).take 4 := by rw [specWord]; norm_num
  have e1 : specWord key 1 = (key.drop 4).take 4 := by rw [specWord]; norm_num
  have e2 : specWord key 2 = (key.drop 8).take 4 := by rw [specWord]; norm_num
  have e3 : specWord key 3 = (key.drop 12).take 4 := by rw [specWord]; norm_num
  rw [show (4 : Nat) = 0 + 1 + 1 + 1 + 1 from rfl]
  rw [specBytes_succ, specBytes_succ, specBytes_succ, specBytes_succ]
  norm_num [specBytes, e0, e1, e2, e3]
  have e : key.take 16 = key.take 4 ++ ((key.drop 4).take 4 ++
      ((key.drop 8).take 4 ++ (key.drop 12).take 4)) := by
    rw [show (16 : Nat) = 4 + (4 + (4 + 4)) from rfl]
    rw [List.take_add, List.take_add, List.take_add]
    simp [List.drop_drop]
  rw [List.take_of_length_le (by omega)] at e
  rw [← e]

/-! ### Claim theorems -/

/-- Unfolding one iteration of the key-expansion loop through given
values of the appended word and the updated rcon counter. -/
theorem expandKeyAux_succ_eq (n : Nat) (ek w : List Nat) (r r2 : Nat)
    (hw : ek ++ nextWordBytes ek r = w) (hr : nextRcon ek r = r2) :
    expandKeyAux (n + 1) ek r = expandKeyAux n w r2 := by
  conv_lhs => rw [expandKeyAux]
  rw [hw, hr]

set_option maxRecDepth 2000 in
/-- Key-expansion iteration 1 on the all-zero key, by evaluation. -/
theorem kat_ek_step_1 :
    expandKeyAux 40 [0, 0, 0, 0, 0, 0, 0, 0, 0, 0, 0, 0, 0, 0, 0, 0] 1 =
      expandKeyAux 39 [0, 0, 0, 0, 0, 0, 0, 0, 0, 0, 0, 0, 0, 0, 0, 0, 98, 99, 99, 99] 2 :=
  expandKeyAux_succ_eq 39 _ _ _ _ (by decide) (by decide)

set_option maxRecDepth 2000 in
/-- Key-expansion iteration 2 on the all-zero key, by evaluation. -/
theorem kat_ek_step_2 :
    expandKeyAux 39 [0, 0, 0, 0, 0, 0, 0, 0, 0, 0, 0, 0, 0, 0, 0, 0, 98, 99, 99, 99] 2 =
      expandKeyAux 38 [0, 0, 0, 0, 0, 0, 0, 0, 0, 0, 0, 0, 0, 0, 0, 0, 98, 99, 99, 99, 98, 99, 99, 99] 2 :=
  expandKeyAux_succ_eq 38 _ _ _ _ (by decide) (by decide)

set_option maxRecDepth 2000 in
/-- Key-expansion iteration 3 on the all-zero key, by evaluation. -/
theorem kat_ek_step_3 :
    expandKeyAux 38 [0, 0, 0, 0, 0, 0, 0, 0, 0, 0, 0, 0, 0, 0, 0, 0, 98, 99, 99, 99, 98, 99, 99, 99] 2 =
      expandKeyAux 37 [0, 0, 0, 0, 0, 0, 0, 0, 0, 0, 0, 0, 0, 0, 0, 0, 98, 99, 99, 99, 98, 99, 99, 99, 98, 99, 99, 99] 2 :=
  expandKeyAux_succ_eq 37 _ _ _ _ (by decide) (by decide)

set_option maxRecDepth 2000 in
/-- Key-expansion iteration 4 on the all-zero key, by evaluation. -/
theorem kat_ek_step_4 :
    expandKeyAux 37 [0, 0, 0, 0, 0, 0, 0, 0, 0, 0, 0, 0, 0, 0, 0, 0, 98, 99, 99, 99, 98, 99, 99, 99, 98, 99, 99, 99] 2 =
      expandKeyAux 36 [0, 0, 0, 0, 0, 0, 0, 0, 0, 0, 0, 0, 0, 0, 0, 0, 98, 99, 99, 99, 98, 99, 99, 99, 98, 99, 99, 99, 98, 99, 99, 99] 2 :=
  expandKeyAux_succ_eq 36 _ _ _ _ (by decide) (by decide)

set_option maxRecDepth 2000 in
/-- Key-expansion iteration 5 on the all-zero key, by evaluation. -/
theorem kat_ek_step_5 :
    expandKeyAux 36 [0, 0, 0, 0, 0, 0, 0, 0, 0, 0, 0, 0, 0, 0, 0, 0, 98, 99, 99, 99, 98, 99, 99, 99, 98, 99, 99, 99, 98, 99, 99, 99] 2 =
      expandKeyAux 35 [0, 0, 0, 0, 0, 0, 0, 0, 0, 0, 0, 0, 0, 0, 0, 0, 98, 99, 99, 99, 98, 99, 99, 99, 98, 99, 99, 99, 98, 99, 99, 99, 155, 152, 152, 201] 3 :=
  expandKeyAux_succ_eq 35 _ _ _ _ (by decide) (by decide)

set_option maxRecDepth 2000 in
/-- Key-expansion iteration 6 on the all-zero key, by evaluation. -/
theorem kat_ek_step_6 :
    expandKeyAux 35 [0, 0, 0, 0, 0, 0, 0, 0, 0, 0, 0, 0, 0, 0, 0, 0, 98, 99, 99, 99, 98, 99, 99, 99, 98, 99, 99, 99, 98, 99, 99, 99, 155, 152, 152, 201] 3 =
      expandKeyAux 34 [0, 0, 0, 0, 0, 0, 0, 0, 0, 0, 0, 0, 0, 0, 0, 0, 98, 99, 99, 99, 98, 99, 99, 99, 98, 99, 99, 99, 98, 99, 99, 99, 155, 152, 152, 201, 249, 251, 251, 170] 3 :=
  expandKeyAux_succ_eq 34 _ _ _ _ (by decide) (by decide)

set_option maxRecDepth 2000 in
/-- Key-expansion iteration 7 on the all-zero key, by evaluation. -/
theorem kat_ek_step_7 :
    expandKeyAux 34 [0, 0, 0, 0, 0, 0, 0, 0, 0, 0, 0, 0, 0, 0, 0, 0, 98, 99, 99, 99, 98, 99, 99, 99, 98, 99, 99, 99, 98, 99, 99, 99, 155, 152, 152, 201, 249, 251, 251, 170] 3 =
      expandKeyAux 33 [0, 0, 0, 0, 0, 0, 0, 0, 0, 0, 0, 0, 0, 0, 0, 0, 98, 99, 99, 99, 98, 99, 99, 99, 98, 99, 99, 99, 98, 99, 99, 99, 155, 152, 152, 201, 249, 251, 251, 170, 155, 152, 152, 201] 3 :=
  expandKeyAux_succ_eq 33 _ _ _ _ (by decide) (by decide)

set_option maxRecDepth 2000 in
/-- Key-expansion iteration 8 on the all-zero key, by evaluation. -/
theorem kat_ek_step_8 :
    expandKeyAux 33 [0, 0, 0, 0, 0, 0, 0, 0, 0, 0, 0, 0, 0, 0, 0, 0, 98, 99, 99, 99, 98, 99, 99, 99, 98, 99, 99, 99, 98, 99, 99, 99, 155, 152, 152, 201, 249, 251, 251, 170, 155, 152, 152, 201] 3 =
      expandKeyAux 32 [0, 0, 0, 0, 0, 0, 0, 0, 0, 0, 0, 0, 0, 0, 0, 0, 98, 99, 99, 99, 98, 99, 99, 99, 98, 99, 99, 99, 98, 99, 99, 99, 155, 152, 152, 201, 249, 251, 251, 170, 155, 152, 152, 201, 249, 251, 251, 170] 3 :=
  expandKeyAux_succ_eq 32 _ _ _ _ (by decide) (by decide)

set_option maxRecDepth 2000 in
/-- Key-expansion iteration 9 on the all-zero key, by evaluation. -/
theorem kat_ek_step_9 :
    expandKeyAux 32 [0, 0, 0, 0, 0, 0, 0, 0, 0, 0, 0, 0, 0, 0, 0, 0, 98, 99, 99, 99, 98, 99, 99, 99, 98, 99, 99, 99, 98, 99, 99, 99, 155, 152, 152, 201, 249, 251, 251, 170, 155, 152, 152, 201, 249, 251, 251, 170] 3 =
      expandKeyAux 31 [0, 0, 0, 0, 0, 0, 0, 0, 0, 0, 0, 0, 0, 0, 0, 0, 98, 99, 99, 99, 98, 99, 99, 99, 98, 99, 99, 99, 98, 99, 99, 99, 155, 152, 152, 201, 249, 251, 251, 170, 155, 152, 152, 201, 249, 251, 251, 170, 144, 151, 52, 80] 4 :=
  expandKeyAux_succ_eq 31 _ _ _ _ (by decide) (by decide)

set_option maxRecDepth 2000 in
/-- Key-expansion iteration 10 on the all-zero key, by evaluation. -/
theorem kat_ek_step_10 :
    expandKeyAux 31 [0, 0, 0, 0, 0, 0, 0, 0, 0, 0, 0, 0, 0, 0, 0, 0, 98, 99, 99, 99, 98, 99, 99, 99, 98, 99, 99, 99, 98, 99, 99, 99, 155, 152, 152, 201, 249, 251, 251, 170, 155, 152, 152, 201, 249, 251, 251, 170, 144, 151, 52, 80] 4 =
      expandKeyAux 30 [0, 0, 0, 0, 0, 0, 0, 0, 0, 0, 0, 0, 0, 0, 0, 0, 98, 99, 99, 99, 98, 99, 99, 99, 98, 99, 99, 99, 98, 99, 99, 99, 155, 152, 152, 201, 249, 251, 251, 170, 155, 152, 152, 201, 249, 251, 251, 170, 144, 151, 52, 80, 105, 108, 207, 250] 4 :=
  expandKeyAux_succ_eq 30 _ _ _ _ (by decide) (by decide)

set_option maxRecDepth 2000 in
/-- Key-expansion iteration 11 on the all-zero key, by evaluation. -/
theorem kat_ek_step_11 :
    expandKeyAux 30 [0, 0, 0, 0, 0, 0, 0, 0, 0, 0, 0, 0, 0, 0, 0, 0, 98, 99, 99, 99, 98, 99, 99, 99, 98, 99, 99, 99, 98, 99, 99, 99, 155, 152, 152, 201, 249, 251, 251, 170, 155, 152, 152, 201, 249, 251, 251, 170, 144, 151, 52, 80, 105, 108, 207, 250] 4 =
      expandKeyAux 29 [0, 0, 0, 0, 0, 0, 0, 0, 0, 0, 0, 0, 0, 0, 0, 0, 98, 99, 99, 99, 98, 99, 99, 99, 98, 99, 99, 99, 98, 99, 99, 99, 155, 152, 152, 201, 249, 251, 251, 170, 155, 152, 152, 201, 249, 251, 251, 170, 144, 151, 52, 80, 105, 108, 207, 250, 242, 244, 87, 51] 4 :=
  expandKeyAux_succ_eq 29 _ _ _ _ (by decide) (by decide)

set_option maxRecDepth 2000 in
/-- Key-expansion iteration 12 on the all-zero key, by evaluation. -/
theorem kat_ek_step_12 :
    expandKeyAux 29 [0, 0, 0, 0, 0, 0, 0, 0, 0, 0, 0, 0, 0, 0, 0, 0, 98, 99, 99, 99, 98, 99, 99, 99, 98, 99, 99, 99, 98, 99, 99, 99, 155, 152, 152, 201, 249, 251, 251, 170, 155, 152, 152, 201, 249, 251, 251, 170, 144, 151, 52, 80, 105, 108, 207, 250, 242, 244, 87, 51] 4 =
      expandKeyAux 28 [0, 0, 0, 0, 0, 0, 0, 0, 0, 0, 0, 0, 0, 0, 0, 0, 98, 99, 99, 99, 98, 99, 99, 99, 98, 99, 99, 99, 98, 99, 99, 99, 155, 152, 152, 201, 249, 251, 251, 170, 155, 152, 152, 201, 249, 251, 251, 170, 144, 151, 52, 80, 105, 108, 207, 250, 242, 244, 87, 51, 11, 15, 172, 153] 4 :=
  expandKeyAux_succ_eq 28 _ _ _ _ (by decide) (by decide)

set_option maxRecDepth 2000 in
/-- Key-expansion iteration 13 on the all-zero key, by evaluation. -/
theorem kat_ek_step_13 :
    expandKeyAux 28 [0, 0, 0, 0, 0, 0, 0, 0, 0, 0, 0, 0, 0, 0, 0, 0, 98, 99, 99, 99, 98, 99, 99, 99, 98, 99, 99, 99, 98, 99, 99, 99, 155, 152, 152, 201, 249, 251, 251, 170, 155, 152, 152, 201, 249, 251, 251, 170, 144, 151, 52, 80, 105, 108, 207, 250, 242, 244, 87, 51, 11, 15, 172, 153] 4 =
      expandKeyAux 27 [0, 0, 0, 0, 0, 0, 0, 0, 0, 0, 0, 0, 0, 0, 0, 0, 98, 99, 99, 99, 98, 99, 99, 99, 98, 99, 99, 99, 98, 99, 99, 99, 155, 152, 152, 201, 249, 251, 251, 170, 155, 152, 152, 201, 249, 251, 251, 170, 144, 151, 52, 80, 105, 108, 207, 250, 242, 244, 87, 51, 11, 15, 172, 153, 238, 6, 218, 123] 5 :=
  expandKeyAux_succ_eq 27 _ _ _ _ (by decide) (by decide)

set_option maxRecDepth 2000 in
/-- Key-expansion iteration 14 on the all-zero key, by evaluation. -/
theorem kat_ek_step_14 :
    expandKeyAux 27 [0, 0, 0, 0, 0, 0, 0, 0, 0, 0, 0, 0, 0, 0, 0, 0, 98, 99, 99, 99, 98, 99, 99, 99, 98, 99, 99, 99, 98, 99, 99, 99, 155, 152, 152, 201, 249, 251, 251, 170, 155, 152, 152, 201, 249, 251, 251, 170, 144, 151, 52, 80, 105, 108, 207, 250, 242, 244, 87, 51, 11, 15, 172, 153, 238, 6, 218, 123] 5 =
      expandKeyAux 26 [0, 0, 0, 0, 0, 0, 0, 0, 0, 0, 0, 0, 0, 0, 0, 0, 98, 99, 99, 99, 98, 99, 99, 99, 98, 99, 99, 99, 98, 99, 99, 99, 155, 152, 152, 201, 249, 251, 251, 170, 155, 152, 152, 201, 249, 251, 251, 170, 144, 151, 52, 80, 105, 108, 207, 250, 242, 244, 87, 51, 11, 15, 172, 153, 238, 6, 218, 123, 135, 106, 21, 129] 5 :=
  expandKeyAux_succ_eq 26 _ _ _ _ (by decide) (by decide)

set_option maxRecDepth 2000 in
/-- Key-expansion iteration 15 on the all-zero key, by evaluation. -/
theorem kat_ek_step_15 :
    expandKeyAux 26 [0, 0, 0, 0, 0, 0, 0, 0, 0, 0, 0, 0, 0, 0, 0, 0, 98, 99, 99, 99, 98, 99, 99, 99, 98, 99, 99, 99, 98, 99, 99, 99, 155, 152, 152, 201, 249, 251, 251, 170, 155, 152, 152, 201, 249, 251, 251, 170, 144, 151, 52, 80, 105, 108, 207, 250, 242, 244, 87, 51, 11, 15, 172, 153, 238, 6, 218, 123, 135, 106, 21, 129] 5 =
      expandKeyAux 25 [0, 0, 0, 0, 0, 0, 0, 0, 0, 0, 0, 0, 0, 0, 0, 0, 98, 99, 99, 99, 98, 99, 99, 99, 98, 99, 99, 99, 98, 99, 99, 99, 155, 152, 152, 201, 249, 251, 251, 170, 155, 152, 152, 201, 249, 251, 251, 170, 144, 151, 52, 80, 105, 108, 207, 250, 242, 244, 87, 51, 11, 15, 172, 153, 238, 6, 218, 123, 135, 106, 21, 129, 117, 158, 66, 178] 5 :=
  expandKeyAux_succ_eq 25 _ _ _ _ (by decide) (by decide)

set_option maxRecDepth 2000 in
/-- Key-expansion iteration 16 on the all-zero key, by evaluation. -/
theorem kat_ek_step_16 :
    expandKeyAux 25 [0, 0, 0, 0, 0, 0, 0, 0, 0, 0, 0, 0, 0, 0, 0, 0, 98, 99, 99, 99, 98, 99, 99, 99, 98, 99, 99, 99, 98, 99, 99, 99, 155, 152, 152, 201, 249, 251, 251, 170, 155, 152, 152, 201, 249, 251, 251, 170, 144, 151, 52, 80, 105, 108, 207, 250, 242, 244, 87, 51, 11, 15, 172, 153, 238, 6, 218, 123, 135, 106, 21, 129, 117, 158, 66, 178] 5 =
      expandKeyAux 24 [0, 0, 0, 0, 0, 0, 0, 0, 0, 0, 0, 0, 0, 0, 0, 0, 98, 99, 99, 99, 98, 99, 99, 99, 98, 99, 99, 99, 98, 99, 99, 99, 155, 152, 152, 201, 249, 251, 251, 170, 155, 152, 152, 201, 249, 251, 251, 170, 144, 151, 52, 80, 105, 108, 207, 250, 242, 244, 87, 51, 11, 15, 172, 153, 238, 6, 218, 123, 135, 106, 21, 129, 117, 158, 66, 178, 126, 145, 238, 43] 5 :=
  expandKeyAux_succ_eq 24 _ _ _ _ (by decide) (by decide)

set_option maxRecDepth 2000 in
/-- Key-expansion iteration 17 on the all-zero key, by evaluation. -/
theorem kat_ek_step_17 :
    expandKeyAux 24 [0, 0, 0, 0, 0, 0, 0, 0, 0, 0, 0, 0, 0, 0, 0, 0, 98, 99, 99, 99, 98, 99, 99, 99, 98, 99, 99, 99, 98, 99, 99, 99, 155, 152, 152, 201, 249, 251, 251, 170, 155, 152, 152, 201, 249, 251, 251, 170, 144, 151, 52, 80, 105, 108, 207, 250, 242, 244, 87, 51, 11, 15, 172, 153, 238, 6, 218, 123, 135, 106, 21, 129, 117, 158, 66, 178, 126, 145, 238, 43] 5 =
      expandKeyAux 23 [0, 0, 0, 0, 0, 0, 0, 0, 0, 0, 0, 0, 0, 0, 0, 0, 98, 99, 99, 99, 98, 99, 99, 99, 98, 99, 99, 99, 98, 99, 99, 99, 155, 152, 152, 201, 249, 251, 251, 170, 155, 152, 152, 201, 249, 251, 251, 170, 144, 151, 52, 80, 105, 108, 207, 250, 242, 244, 87, 51, 11, 15, 172, 153, 238, 6, 218, 123, 135, 106, 21, 129, 117, 158, 66, 178, 126, 145, 238, 43, 127, 46, 43, 136] 6 :=
  expandKeyAux_succ_eq 23 _ _ _ _ (by decide) (by decide)

set_option maxRecDepth 2000 in
/-- Key-expansion iteration 18 on the all-zero key, by evaluation. -/
theorem kat_ek_step_18 :
    expandKeyAux 23 [0, 0, 0, 0, 0, 0, 0, 0, 0, 0, 0, 0, 0, 0, 0, 0, 98, 99, 99, 99, 98, 99, 99, 99, 98, 99, 99, 99, 98, 99, 99, 99, 155, 152, 152, 201, 249, 251, 251, 170, 155, 152, 152, 201, 249, 251, 251, 170, 144, 151, 52, 80, 105, 108, 207, 250, 242, 244, 87, 51, 11, 15, 172, 153, 238, 6, 218, 123, 135, 106, 21, 129, 117, 158, 66, 178, 126, 145, 238, 43, 127, 46, 43, 136] 6 =
      expandKeyAux 22 [0, 0, 0, 0, 0, 0, 0, 0, 0, 0, 0, 0, 0, 0, 0, 0, 98, 99, 99, 99, 98, 99, 99, 99, 98, 99, 99, 99, 98, 99, 99, 99, 155, 152, 152, 201, 249, 251, 251, 170, 155, 152, 152, 201, 249, 251, 251, 170, 144, 151, 52, 80, 105, 108, 207, 250, 242, 244, 87, 51, 11, 15, 172, 153, 238, 6, 218, 123, 135, 106, 21, 129, 117, 158, 66, 178, 126, 145, 238, 43, 127, 46, 43, 136, 248, 68, 62, 9] 6 :=
  expandKeyAux_succ_eq 22 _ _ _ _ (by decide) (by decide)

set_option maxRecDepth 2000 in
/-- Key-expansion iteration 19 on the all-zero key, by evaluation. -/
theorem kat_ek_step_19 :
    expandKeyAux 22 [0, 0, 0, 0, 0, 0, 0, 0, 0, 0, 0, 0, 0, 0, 0, 0, 98, 99, 99, 99, 98, 99, 99, 99, 98, 99, 99, 99, 98, 99, 99, 99, 155, 152, 152, 201, 249, 251, 251, 170, 155, 152, 152, 201, 249, 251, 251, 170, 144, 151, 52, 80, 105, 108, 207, 250, 242, 244, 87, 51, 11, 15, 172, 153, 238, 6, 218, 123, 135, 106, 21, 129, 117, 158, 66, 178, 126, 145, 238, 43, 127, 46, 43, 136, 248, 68, 62, 9] 6 =
      expandKeyAux 21 [0, 0, 0, 0, 0, 0, 0, 0, 0, 0, 0, 0, 0, 0, 0, 0, 98, 99, 99, 99, 98, 99, 99, 99, 98, 99, 99, 99, 98, 99, 99, 99, 155, 152, 152, 201, 249, 251, 251, 170, 155, 152, 152, 201, 249, 251, 251, 170, 144, 151, 52, 80, 105, 108, 207, 250, 242, 244, 87, 51, 11, 15, 172, 153, 238, 6, 218, 123, 135, 106, 21, 129, 117, 158, 66, 178, 126, 145, 238, 43, 127, 46, 43, 136, 248, 68, 62, 9, 141, 218, 124, 187] 6 :=
  expandKeyAux_succ_eq 21 _ _ _ _ (by decide) (by decide)

set_option maxRecDepth 2000 in
/-- Key-expansion iteration 20 on the all-zero key, by evaluation. -/
theorem kat_ek_step_20 :
    expandKeyAux 21 [0, 0, 0, 0, 0, 0, 0, 0, 0, 0, 0, 0, 0, 0, 0, 0, 98, 99, 99, 99, 98, 99, 99, 99, 98, 99, 99, 99, 98, 99, 99, 99, 155, 152, 152, 201, 249, 251, 251, 170, 155, 152, 152, 201, 249, 251, 251, 170, 144, 151, 52, 80, 105, 108, 207, 250, 242, 244, 87, 51, 11, 15, 172, 153, 238, 6, 218, 123, 135, 106, 21, 129, 117, 158, 66, 178, 126, 145, 238, 43, 127, 46, 43, 136, 248, 68, 62, 9, 141, 218, 124, 187] 6 =
      expandKeyAux 20 [0, 0, 0, 0, 0, 0, 0, 0, 0, 0, 0, 0, 0, 0, 0, 0, 98, 99, 99, 99, 98, 99, 99, 99, 98, 99, 99, 99, 98, 99, 99, 99, 155, 152, 152, 201, 249, 251, 251, 170, 155, 152, 152, 201, 249, 251, 251, 170, 144, 151, 52, 80, 105, 108, 207, 250, 242, 244, 87, 51, 11, 15, 172, 153, 238, 6, 218, 123, 135, 106, 21, 129, 117, 158, 66, 178, 126, 145, 238, 43, 127, 46, 43, 136, 248, 68, 62, 9, 141, 218, 124, 187, 243, 75, 146, 144] 6 :=
  expandKeyAux_succ_eq 20 _ _ _ _ (by decide) (by decide)

set_option maxRecDepth 2000 in
/-- Key-expansion iteration 21 on the all-zero key, by evaluation. -/
theorem kat_ek_step_21 :
    expandKeyAux 20 [0, 0, 0, 0, 0, 0, 0, 0, 0, 0, 0, 0, 0, 0, 0, 0, 98, 99, 99, 99, 98, 99, 99, 99, 98, 99, 99, 99, 98, 99, 99, 99, 155, 152, 152, 201, 249, 251, 251, 170, 155, 152, 152, 201, 249, 251, 251, 170, 144, 151, 52, 80, 105, 108, 207, 250, 242, 244, 87, 51, 11, 15, 172, 153, 238, 6, 218, 123, 135, 106, 21, 129, 117, 158, 66, 178, 126, 145, 238, 43, 127, 46, 43, 136, 248, 68, 62, 9, 141, 218, 124, 187, 243, 75, 146, 144] 6 =
      expandKeyAux 19 [0, 0, 0, 0, 0, 0, 0, 0, 0, 0, 0, 0, 0, 0, 0, 0, 98, 99, 99, 99, 98, 99, 99, 99, 98, 99, 99, 99, 98, 99, 99, 99, 155, 152, 152, 201, 249, 251, 251, 170, 155, 152, 152, 201, 249, 251, 251, 170, 144, 151, 52, 80, 105, 108, 207, 250, 242, 244, 87, 51, 11, 15, 172, 153, 238, 6, 218, 123, 135, 106, 21, 129, 117, 158, 66, 178, 126, 145, 238, 43, 127, 46, 43, 136, 248, 68, 62, 9, 141, 218, 124, 187, 243, 75, 146, 144, 236, 97, 75, 133] 7 :=
  expandKeyAux_succ_eq 19 _ _ _ _ (by decide) (by decide)

set_option maxRecDepth 2000 in
/-- Key-expansion iteration 22 on the all-zero key, by evaluation. -/
theorem kat_ek_step_22 :
    expandKeyAux 19 [0, 0, 0, 0, 0, 0, 0, 0, 0, 0, 0, 0, 0, 0, 0, 0, 98, 99, 99, 99, 98, 99, 99, 99, 98, 99, 99, 99, 98, 99, 99, 99, 155, 152, 152, 201, 249, 251, 251, 170, 155, 152, 152, 201, 249, 251, 251, 170, 144, 151, 52, 80, 105, 108, 207, 250, 242, 244, 87, 51, 11, 15, 172, 153, 238, 6, 218, 123, 135, 106, 21, 129, 117, 158, 66, 178, 126, 145, 238, 43, 127, 46, 43, 136, 248, 68, 62, 9, 141, 218, 124, 187, 243, 75, 146, 144, 236, 97, 75, 133] 7 =
      expandKeyAux 18 [0, 0, 0, 0, 0, 0, 0, 0, 0, 0, 0, 0, 0, 0, 0, 0, 98, 99, 99, 99, 98, 99, 99, 99, 98, 99, 99, 99, 98, 99, 99, 99, 155, 152, 152, 201, 249, 251, 251, 170, 155, 152, 152, 201, 249, 251, 251, 170, 144, 151, 52, 80, 105, 108, 207, 250, 242, 244, 87, 51, 11, 15, 172, 153, 238, 6, 218, 123, 135, 106, 21, 129, 117, 158, 66, 178, 126, 145, 238, 43, 127, 46, 43, 136, 248, 68, 62, 9, 141, 218, 124, 187, 243, 75, 146, 144, 236, 97, 75, 133, 20, 37, 117, 140] 7 :=
  expandKeyAux_succ_eq 18 _ _ _ _ (by decide) (by decide)

set_option maxRecDepth 2000 in
/-- Key-expansion iteration 23 on the all-zero key, by evaluation. -/
theorem kat_ek_step_23 :
    expandKeyAux 18 [0, 0, 0, 0, 0, 0, 0, 0, 0, 0, 0, 0, 0, 0, 0, 0, 98, 99, 99, 99, 98, 99, 99, 99, 98, 99, 99, 99, 98, 99, 99, 99, 155, 152, 152, 201, 249, 251, 251, 170, 155, 152, 152, 201, 249, 251, 251, 170, 144, 151, 52, 80, 105, 108, 207, 250, 242, 244, 87, 51, 11, 15, 172, 153, 238, 6, 218, 123, 135, 106, 21, 129, 117, 158, 66, 178, 126, 145, 238, 43, 127, 46, 43, 136, 248, 68, 62, 9, 141, 218, 124, 187, 243, 75, 146, 144, 236, 97, 75, 133, 20, 37, 117, 140] 7 =
      expandKeyAux 17 [0, 0, 0, 0, 0, 0, 0, 0, 0, 0, 0, 0, 0, 0, 0, 0, 98, 99, 99, 99, 98, 99, 99, 99, 98, 99, 99, 99, 98, 99, 99, 99, 155, 152, 152, 201, 249, 251, 251, 170, 155, 152, 152, 201, 249, 251, 251, 170, 144, 151, 52, 80, 105, 108, 207, 250, 242, 244, 87, 51, 11, 15, 172, 153, 238, 6, 218, 123, 135, 106, 21, 129, 117, 158, 66, 178, 126, 145, 238, 43, 127, 46, 43, 136, 248, 68, 62, 9, 141, 218, 124, 187, 243, 75, 146, 144, 236, 97, 75, 133, 20, 37, 117, 140, 153, 255, 9, 55] 7 :=
  expandKeyAux_succ_eq 17 _ _ _ _ (by decide) (by decide)

set_option maxRecDepth 2000 in
/-- Key-expansion iteration 24 on the all-zero key, by evaluation. -/
theorem kat_ek_step_24 :
    expandKeyAux 17 [0, 0, 0, 0, 0, 0, 0, 0, 0, 0, 0, 0, 0, 0, 0, 0, 98, 99, 99, 99, 98, 99, 99, 99, 98, 99, 99, 99, 98, 99, 99, 99, 155, 152, 152, 201, 249, 251, 251, 170, 155, 152, 152, 201, 249, 251, 251, 170, 144, 151, 52, 80, 105, 108, 207, 250, 242, 244, 87, 51, 11, 15, 172, 153, 238, 6, 218, 123, 135, 106, 21, 129, 117, 158, 66, 178, 126, 145, 238, 43, 127, 46, 43, 136, 248, 68, 62, 9, 141, 218, 124, 187, 243, 75, 146, 144, 236, 97, 75, 133, 20, 37, 117, 140, 153, 255, 9, 55] 7 =
      expandKeyAux 16 [0, 0, 0, 0, 0, 0, 0, 0, 0, 0, 0, 0, 0, 0, 0, 0, 98, 99, 99, 99, 98, 99, 99, 99, 98, 99, 99, 99, 98, 99, 99, 99, 155, 152, 152, 201, 249, 251, 251, 170, 155, 152, 152, 201, 249, 251, 251, 170, 144, 151, 52, 80, 105, 108, 207, 250, 242, 244, 87, 51, 11, 15, 172, 153, 238, 6, 218, 123, 135, 106, 21, 129, 117, 158, 66, 178, 126, 145, 238, 43, 127, 46, 43, 136, 248, 68, 62, 9, 141, 218, 124, 187, 243, 75, 146, 144, 236, 97, 75, 133, 20, 37, 117, 140, 153, 255, 9, 55, 106, 180, 155, 167] 7 :=
  expandKeyAux_succ_eq 16 _ _ _ _ (by decide) (by decide)

set_option maxRecDepth 2000 in
/-- Key-expansion iteration 25 on the all-zero key, by evaluation. -/
theorem kat_ek_step_25 :
    expandKeyAux 16 [0, 0, 0, 0, 0, 0, 0, 0, 0, 0, 0, 0, 0, 0, 0, 0, 98, 99, 99, 99, 98, 99, 99, 99, 98, 99, 99, 99, 98, 99, 99, 99, 155, 152, 152, 201, 249, 251, 251, 170, 155, 152, 152, 201, 249, 251, 251, 170, 144, 151, 52, 80, 105, 108, 207, 250, 242, 244, 87, 51, 11, 15, 172, 153, 238, 6, 218, 123, 135, 106, 21, 129, 117, 158, 66, 178, 126, 145, 238, 43, 127, 46, 43, 136, 248, 68, 62, 9, 141, 218, 124, 187, 243, 75, 146, 144, 236, 97, 75, 133, 20, 37, 117, 140, 153, 255, 9, 55, 106, 180, 155, 167] 7 =
      expandKeyAux 15 [0, 0, 0, 0, 0, 0, 0, 0, 0, 0, 0, 0, 0, 0, 0, 0, 98, 99, 99, 99, 98, 99, 99, 99, 98, 99, 99, 99, 98, 99, 99, 99, 155, 152, 152, 201, 249, 251, 251, 170, 155, 152, 152, 201, 249, 251, 251, 170, 144, 151, 52, 80, 105, 108, 207, 250, 242, 244, 87, 51, 11, 15, 172, 153, 238, 6, 218, 123, 135, 106, 21, 129, 117, 158, 66, 178, 126, 145, 238, 43, 127, 46, 43, 136, 248, 68, 62, 9, 141, 218, 124, 187, 243, 75, 146, 144, 236, 97, 75, 133, 20, 37, 117, 140, 153, 255, 9, 55, 106, 180, 155, 167, 33, 117, 23, 135] 8 :=
  expandKeyAux_succ_eq 15 _ _ _ _ (by decide) (by decide)

set_option maxRecDepth 2000 in
/-- Key-expansion iteration 26 on the all-zero key, by evaluation. -/
theorem kat_ek_step_26 :
    expandKeyAux 15 [0, 0, 0, 0, 0, 0, 0, 0, 0, 0, 0, 0, 0, 0, 0, 0, 98, 99, 99, 99, 98, 99, 99, 99, 98, 99, 99, 99, 98, 99, 99, 99, 155, 152, 152, 201, 249, 251, 251, 170, 155, 152, 152, 201, 249, 251, 251, 170, 144, 151, 52, 80, 105, 108, 207, 250, 242, 244, 87, 51, 11, 15, 172, 153, 238, 6, 218, 123, 135, 106, 21, 129, 117, 158, 66, 178, 126, 145, 238, 43, 127, 46, 43, 136, 248, 68, 62, 9, 141, 218, 124, 187, 243, 75, 146, 144, 236, 97, 75, 133, 20, 37, 117, 140, 153, 255, 9, 55, 106, 180, 155, 167, 33, 117, 23, 135] 8 =
      expandKeyAux 14 [0, 0, 0, 0, 0, 0, 0, 0, 0, 0, 0, 0, 0, 0, 0, 0, 98, 99, 99, 99, 98, 99, 99, 99, 98, 99, 99, 99, 98, 99, 99, 99, 155, 152, 152, 201, 249, 251, 251, 170, 155, 152, 152, 201, 249, 251, 251, 170, 144, 151, 52, 80, 105, 108, 207, 250, 242, 244, 87, 51, 11, 15, 172, 153, 238, 6, 218, 123, 135, 106, 21, 129, 117, 158, 66, 178, 126, 145, 238, 43, 127, 46, 43, 136, 248, 68, 62, 9, 141, 218, 124, 187, 243, 75, 146, 144, 236, 97, 75, 133, 20, 37, 117, 140, 153, 255, 9, 55, 106, 180, 155, 167, 33, 117, 23, 135, 53, 80, 98, 11] 8 :=
  expandKeyAux_succ_eq 14 _ _ _ _ (by decide) (by decide)

set_option maxRecDepth 2000 in
/-- Key-expansion iteration 27 on the all-zero key, by evaluation. -/
theorem kat_ek_step_27 :
    expandKeyAux 14 [0, 0, 0, 0, 0, 0, 0, 0, 0, 0, 0, 0, 0, 0, 0, 0, 98, 99, 99, 99, 98, 99, 99, 99, 98, 99, 99, 99, 98, 99, 99, 99, 155, 152, 152, 201, 249, 251, 251, 170, 155, 152, 152, 201, 249, 251, 251, 170, 144, 151, 52, 80, 105, 108, 207, 250, 242, 244, 87, 51, 11, 15, 172, 153, 238, 6, 218, 123, 135, 106, 21, 129, 117, 158, 66, 178, 126, 145, 238, 43, 127, 46, 43, 136, 248, 68, 62, 9, 141, 218, 124, 187, 243, 75, 146, 144, 236, 97, 75, 133, 20, 37, 117, 140, 153, 255, 9, 55, 106, 180, 155, 167, 33, 117, 23, 135, 53, 80, 98, 11] 8 =
      expandKeyAux 13 [0, 0, 0, 0, 0, 0, 0, 0, 0, 0, 0, 0, 0, 0, 0, 0, 98, 99, 99, 99, 98, 99, 99, 99, 98, 99, 99, 99, 98, 99, 99, 99, 155, 152, 152, 201, 249, 251, 251, 170, 155, 152, 152, 201, 249, 251, 251, 170, 144, 151, 52, 80, 105, 108, 207, 250, 242, 244, 87, 51, 11, 15, 172, 153, 238, 6, 218, 123, 135, 106, 21, 129, 117, 158, 66, 178, 126, 145, 238, 43, 127, 46, 43, 136, 248, 68, 62, 9, 141, 218, 124, 187, 243, 75, 146, 144, 236, 97, 75, 133, 20, 37, 117, 140, 153, 255, 9, 55, 106, 180, 155, 167, 33, 117, 23, 135, 53, 80, 98, 11, 172, 175, 107, 60] 8 :=
  expandKeyAux_succ_eq 13 _ _ _ _ (by decide) (by decide)

set_option maxRecDepth 2000 in
/-- Key-expansion iteration 28 on the all-zero key, by evaluation. -/
theorem kat_ek_step_28 :
    expandKeyAux 13 [0, 0, 0, 0, 0, 0, 0, 0, 0, 0, 0, 0, 0, 0, 0, 0, 98, 99, 99, 99, 98, 99, 99, 99, 98, 99, 99, 99, 98, 99, 99, 99, 155, 152, 152, 201, 249, 251, 251, 170, 155, 152, 152, 201, 249, 251, 251, 170, 144, 151, 52, 80, 105, 108, 207, 250, 242, 244, 87, 51, 11, 15, 172, 153, 238, 6, 218, 123, 135, 106, 21, 129, 117, 158, 66, 178, 126, 145, 238, 43, 127, 46, 43, 136, 248, 68, 62, 9, 141, 218, 124, 187, 243, 75, 146, 144, 236, 97, 75, 133, 20, 37, 117, 140, 153, 255, 9, 55, 106, 180, 155, 167, 33, 117, 23, 135, 53, 80, 98, 11, 172, 175, 107, 60] 8 =
      expandKeyAux 12 [0, 0, 0, 0, 0, 0, 0, 0, 0, 0, 0, 0, 0, 0, 0, 0, 98, 99, 99, 99, 98, 99, 99, 99, 98, 99, 99, 99, 98, 99, 99, 99, 155, 152, 152, 201, 249, 251, 251, 170, 155, 152, 152, 201, 249, 251, 251, 170, 144, 151, 52, 80, 105, 108, 207, 250, 242, 244, 87, 51, 11, 15, 172, 153, 238, 6, 218, 123, 135, 106, 21, 129, 117, 158, 66, 178, 126, 145, 238, 43, 127, 46, 43, 136, 248, 68, 62, 9, 141, 218, 124, 187, 243, 75, 146, 144, 236, 97, 75, 133, 20, 37, 117, 140, 153, 255, 9, 55, 106, 180, 155, 167, 33, 117, 23, 135, 53, 80, 98, 11, 172, 175, 107, 60, 198, 27, 240, 155] 8 :=
  expandKeyAux_succ_eq 12 _ _ _ _ (by decide) (by decide)

set_option maxRecDepth 2000 in
/-- Key-expansion iteration 29 on the all-zero key, by evaluation. -/
theorem kat_ek_step_29 :
    expandKeyAux 12 [0, 0, 0, 0, 0, 0, 0, 0, 0, 0, 0, 0, 0, 0, 0, 0, 98, 99, 99, 99, 98, 99, 99, 99, 98, 99, 99, 99, 98, 99, 99, 99, 155, 152, 152, 201, 249, 251, 251, 170, 155, 152, 152, 201, 249, 251, 251, 170, 144, 151, 52, 80, 105, 108, 207, 250, 242, 244, 87, 51, 11, 15, 172, 153, 238, 6, 218, 123, 135, 106, 21, 129, 117, 158, 66, 178, 126, 145, 238, 43, 127, 46, 43, 136, 248, 68, 62, 9, 141, 218, 124, 187, 243, 75, 146, 144, 236, 97, 75, 133, 20, 37, 117, 140, 153, 255, 9, 55, 106, 180, 155, 167, 33, 117, 23, 135, 53, 80, 98, 11, 172, 175, 107, 60, 198, 27, 240, 155] 8 =
      expandKeyAux 11 [0, 0, 0, 0, 0, 0, 0, 0, 0, 0, 0, 0, 0, 0, 0, 0, 98, 99, 99, 99, 98, 99, 99, 99, 98, 99, 99, 99, 98, 99, 99, 99, 155, 152, 152, 201, 249, 251, 251, 170, 155, 152, 152, 201, 249, 251, 251, 170, 144, 151, 52, 80, 105, 108, 207, 250, 242, 244, 87, 51, 11, 15, 172, 153, 238, 6, 218, 123, 135, 106, 21, 129, 117, 158, 66, 178, 126, 145, 238, 43, 127, 46, 43, 136, 248, 68, 62, 9, 141, 218, 124, 187, 243, 75, 146, 144, 236, 97, 75, 133, 20, 37, 117, 140, 153, 255, 9, 55, 106, 180, 155, 167, 33, 117, 23, 135, 53, 80, 98, 11, 172, 175, 107, 60, 198, 27, 240, 155, 14, 249, 3, 51] 9 :=
  expandKeyAux_succ_eq 11 _ _ _ _ (by decide) (by decide)

set_option maxRecDepth 2000 in
/-- Key-expansion iteration 30 on the all-zero key, by evaluation. -/
theorem kat_ek_step_30 :
    expandKeyAux 11 [0, 0, 0, 0, 0, 0, 0, 0, 0, 0, 0, 0, 0, 0, 0, 0, 98, 99, 99, 99, 98, 99, 99, 99, 98, 99, 99, 99, 98, 99, 99, 99, 155, 152, 152, 201, 249, 251, 251, 170, 155, 152, 152, 201, 249, 251, 251, 170, 144, 151, 52, 80, 105, 108, 207, 250, 242, 244, 87, 51, 11, 15, 172, 153, 238, 6, 218, 123, 135, 106, 21, 129, 117, 158, 66, 178, 126, 145, 238, 43, 127, 46, 43, 136, 248, 68, 62, 9, 141, 218, 124, 187, 243, 75, 146, 144, 236, 97, 75, 133, 20, 37, 117, 140, 153, 255, 9, 55, 106, 180, 155, 167, 33, 117, 23, 135, 53, 80, 98, 11, 172, 175, 107, 60, 198, 27, 240, 155, 14, 249, 3, 51] 9 =
      expandKeyAux 10 [0, 0, 0, 0, 0, 0, 0, 0, 0, 0, 0, 0, 0, 0, 0, 0, 98, 99, 99, 99, 98, 99, 99, 99, 98, 99, 99, 99, 98, 99, 99, 99, 155, 152, 152, 201, 249, 251, 251, 170, 155, 152, 152, 201, 249, 251, 251, 170, 144, 151, 52, 80, 105, 108, 207, 250, 242, 244, 87, 51, 11, 15, 172, 153, 238, 6, 218, 123, 135, 106, 21, 129, 117, 158, 66, 178, 126, 145, 238, 43, 127, 46, 43, 136, 248, 68, 62, 9, 141, 218, 124, 187, 243, 75, 146, 144, 236, 97, 75, 133, 20, 37, 117, 140, 153, 255, 9, 55, 106, 180, 155, 167, 33, 117, 23, 135, 53, 80, 98, 11, 172, 175, 107, 60, 198, 27, 240, 155, 14, 249, 3, 51, 59, 169, 97, 56] 9 :=
  expandKeyAux_succ_eq 10 _ _ _ _ (by decide) (by decide)

set_option maxRecDepth 2000 in
/-- Key-expansion iteration 31 on the all-zero key, by evaluation. -/
theorem kat_ek_step_31 :
    expandKeyAux 10 [0, 0, 0, 0, 0, 0, 0, 0, 0, 0, 0, 0, 0, 0, 0, 0, 98, 99, 99, 99, 98, 99, 99, 99, 98, 99, 99, 99, 98, 99, 99, 99, 155, 152, 152, 201, 249, 251, 251, 170, 155, 152, 152, 201, 249, 251, 251, 170, 144, 151, 52, 80, 105, 108, 207, 250, 242, 244, 87, 51, 11, 15, 172, 153, 238, 6, 218, 123, 135, 106, 21, 129, 117, 158, 66, 178, 126, 145, 238, 43, 127, 46, 43, 136, 248, 68, 62, 9, 141, 218, 124, 187, 243, 75, 146, 144, 236, 97, 75, 133, 20, 37, 117, 140, 153, 255, 9, 55, 106, 180, 155, 167, 33, 117, 23, 135, 53, 80, 98, 11, 172, 175, 107, 60, 198, 27, 240, 155, 14, 249, 3, 51, 59, 169, 97, 56] 9 =
      expandKeyAux 9 [0, 0, 0, 0, 0, 0, 0, 0, 0, 0, 0, 0, 0, 0, 0, 0, 98, 99, 99, 99, 98, 99, 99, 99, 98, 99, 99, 99, 98, 99, 99, 99, 155, 152, 152, 201, 249, 251, 251, 170, 155, 152, 152, 201, 249, 251, 251, 170, 144, 151, 52, 80, 105, 108, 207, 250, 242, 244, 87, 51, 11, 15, 172, 153, 238, 6, 218, 123, 135, 106, 21, 129, 117, 158, 66, 178, 126, 145, 238, 43, 127, 46, 43, 136, 248, 68, 62, 9, 141, 218, 124, 187, 243, 75, 146, 144, 236, 97, 75, 133, 20, 37, 117, 140, 153, 255, 9, 55, 106, 180, 155, 167, 33, 117, 23, 135, 53, 80, 98, 11, 172, 175, 107, 60, 198, 27, 240, 155, 14, 249, 3, 51, 59, 169, 97, 56, 151, 6, 10, 4] 9 :=
  expandKeyAux_succ_eq 9 _ _ _ _ (by decide) (by decide)

set_option maxRecDepth 2000 in
/-- Key-expansion iteration 32 on the all-zero key, by evaluation. -/
theorem kat_ek_step_32 :
    expandKeyAux 9 [0, 0, 0, 0, 0, 0, 0, 0, 0, 0, 0, 0, 0, 0, 0, 0, 98, 99, 99, 99, 98, 99, 99, 99, 98, 99, 99, 99, 98, 99, 99, 99, 155, 152, 152, 201, 249, 251, 251, 170, 155, 152, 152, 201, 249, 251, 251, 170, 144, 151, 52, 80, 105, 108, 207, 250, 242, 244, 87, 51, 11, 15, 172, 153, 238, 6, 218, 123, 135, 106, 21, 129, 117, 158, 66, 178, 126, 145, 238, 43, 127, 46, 43, 136, 248, 68, 62, 9, 141, 218, 124, 187, 243, 75, 146, 144, 236, 97, 75, 133, 20, 37, 117, 140, 153, 255, 9, 55, 106, 180, 155, 167, 33, 117, 23, 135, 53, 80, 98, 11, 172, 175, 107, 60, 198, 27, 240, 155, 14, 249, 3, 51, 59, 169, 97, 56, 151, 6, 10, 4] 9 =
      expandKeyAux 8 [0, 0, 0, 0, 0, 0, 0, 0, 0, 0, 0, 0, 0, 0, 0, 0, 98, 99, 99, 99, 98, 99, 99, 99, 98, 99, 99, 99, 98, 99, 99, 99, 155, 152, 152, 201, 249, 251, 251, 170, 155, 152, 152, 201, 249, 251, 251, 170, 144, 151, 52, 80, 105, 108, 207, 250, 242, 244, 87, 51, 11, 15, 172, 153, 238, 6, 218, 123, 135, 106, 21, 129, 117, 158, 66, 178, 126, 145, 238, 43, 127, 46, 43, 136, 248, 68, 62, 9, 141, 218, 124, 187, 243, 75, 146, 144, 236, 97, 75, 133, 20, 37, 117, 140, 153, 255, 9, 55, 106, 180, 155, 167, 33, 117, 23, 135, 53, 80, 98, 11, 172, 175, 107, 60, 198, 27, 240, 155, 14, 249, 3, 51, 59, 169, 97, 56, 151, 6, 10, 4, 81, 29, 250, 159] 9 :=
  expandKeyAux_succ_eq 8 _ _ _ _ (by decide) (by decide)

set_option maxRecDepth 2000 in
/-- Key-expansion iteration 33 on the all-zero key, by evaluation. -/
theorem kat_ek_step_33 :
    expandKeyAux 8 [0, 0, 0, 0, 0, 0, 0, 0, 0, 0, 0, 0, 0, 0, 0, 0, 98, 99, 99, 99, 98, 99, 99, 99, 98, 99, 99, 99, 98, 99, 99, 99, 155, 152, 152, 201, 249, 251, 251, 170, 155, 152, 152, 201, 249, 251, 251, 170, 144, 151, 52, 80, 105, 108, 207, 250, 242, 244, 87, 51, 11, 15, 172, 153, 238, 6, 218, 123, 135, 106, 21, 129, 117, 158, 66, 178, 126, 145, 238, 43, 127, 46, 43, 136, 248, 68, 62, 9, 141, 218, 124, 187, 243, 75, 146, 144, 236, 97, 75, 133, 20, 37, 117, 140, 153, 255, 9, 55, 106, 180, 155, 167, 33, 117, 23, 135, 53, 80, 98, 11, 172, 175, 107, 60, 198, 27, 240, 155, 14, 249, 3, 51, 59, 169, 97, 56, 151, 6, 10, 4, 81, 29, 250, 159] 9 =
      expandKeyAux 7 [0, 0, 0, 0, 0, 0, 0, 0, 0, 0, 0, 0, 0, 0, 0, 0, 98, 99, 99, 99, 98, 99, 99, 99, 98, 99, 99, 99, 98, 99, 99, 99, 155, 152, 152, 201, 249, 251, 251, 170, 155, 152, 152, 201, 249, 251, 251, 170, 144, 151, 52, 80, 105, 108, 207, 250, 242, 244, 87, 51, 11, 15, 172, 153, 238, 6, 218, 123, 135, 106, 21, 129, 117, 158, 66, 178, 126, 145, 238, 43, 127, 46, 43, 136, 248, 68, 62, 9, 141, 218, 124, 187, 243, 75, 146, 144, 236, 97, 75, 133, 20, 37, 117, 140, 153, 255, 9, 55, 106, 180, 155, 167, 33, 117, 23, 135, 53, 80, 98, 11, 172, 175, 107, 60, 198, 27, 240, 155, 14, 249, 3, 51, 59, 169, 97, 56, 151, 6, 10, 4, 81, 29, 250, 159, 177, 212, 216, 226] 10 :=
  expandKeyAux_succ_eq 7 _ _ _ _ (by decide) (by decide)

set_option maxRecDepth 2000 in
/-- Key-expansion iteration 34 on the all-zero key, by evaluation. -/
theorem kat_ek_step_34 :
    expandKeyAux 7 [0, 0, 0, 0, 0, 0, 0, 0, 0, 0, 0, 0, 0, 0, 0, 0, 98, 99, 99, 99, 98, 99, 99, 99, 98, 99, 99, 99, 98, 99, 99, 99, 155, 152, 152, 201, 249, 251, 251, 170, 155, 152, 152, 201, 249, 251, 251, 170, 144, 151, 52, 80, 105, 108, 207, 250, 242, 244, 87, 51, 11, 15, 172, 153, 238, 6, 218, 123, 135, 106, 21, 129, 117, 158, 66, 178, 126, 145, 238, 43, 127, 46, 43, 136, 248, 68, 62, 9, 141, 218, 124, 187, 243, 75, 146, 144, 236, 97, 75, 133, 20, 37, 117, 140, 153, 255, 9, 55, 106, 180, 155, 167, 33, 117, 23, 135, 53, 80, 98, 11, 172, 175, 107, 60, 198, 27, 240, 155, 14, 249, 3, 51, 59, 169, 97, 56, 151, 6, 10, 4, 81, 29, 250, 159, 177, 212, 216, 226] 10 =
      expandKeyAux 6 [0, 0, 0, 0, 0, 0, 0, 0, 0, 0, 0, 0, 0, 0, 0, 0, 98, 99, 99, 99, 98, 99, 99, 99, 98, 99, 99, 99, 98, 99, 99, 99, 155, 152, 152, 201, 249, 251, 251, 170, 155, 152, 152, 201, 249, 251, 251, 170, 144, 151, 52, 80, 105, 108, 207, 250, 242, 244, 87, 51, 11, 15, 172, 153, 238, 6, 218, 123, 135, 106, 21, 129, 117, 158, 66, 178, 126, 145, 238, 43, 127, 46, 43, 136, 248, 68, 62, 9, 141, 218, 124, 187, 243, 75, 146, 144, 236, 97, 75, 133, 20, 37, 117, 140, 153, 255, 9, 55, 106, 180, 155, 167, 33, 117, 23, 135, 53, 80, 98, 11, 172, 175, 107, 60, 198, 27, 240, 155, 14, 249, 3, 51, 59, 169, 97, 56, 151, 6, 10, 4, 81, 29, 250, 159, 177, 212, 216, 226, 138, 125, 185, 218] 10 :=
  expandKeyAux_succ_eq 6 _ _ _ _ (by decide) (by decide)

set_option maxRecDepth 2000 in
/-- Key-expansion iteration 35 on the all-zero key, by evaluation. -/
theorem kat_ek_step_35 :
    expandKeyAux 6 [0, 0, 0, 0, 0, 0, 0, 0, 0, 0, 0, 0, 0, 0, 0, 0, 98, 99, 99, 99, 98, 99, 99, 99, 98, 99, 99, 99, 98, 99, 99, 99, 155, 152, 152, 201, 249, 251, 251, 170, 155, 152, 152, 201, 249, 251, 251, 170, 144, 151, 52, 80, 105, 108, 207, 250, 242, 244, 87, 51, 11, 15, 172, 153, 238, 6, 218, 123, 135, 106, 21, 129, 117, 158, 66, 178, 126, 145, 238, 43, 127, 46, 43, 136, 248, 68, 62, 9, 141, 218, 124, 187, 243, 75, 146, 144, 236, 97, 75, 133, 20, 37, 117, 140, 153, 255, 9, 55, 106, 180, 155, 167, 33, 117, 23, 135, 53, 80, 98, 11, 172, 175, 107, 60, 198, 27, 240, 155, 14, 249, 3, 51, 59, 169, 97, 56, 151, 6, 10, 4, 81, 29, 250, 159, 177, 212, 216, 226, 138, 125, 185, 218] 10 =
      expandKeyAux 5 [0, 0, 0, 0, 0, 0, 0, 0, 0, 0, 0, 0, 0, 0, 0, 0, 98, 99, 99, 99, 98, 99, 99, 99, 98, 99, 99, 99, 98, 99, 99, 99, 155, 152, 152, 201, 249, 251, 251, 170, 155, 152, 152, 201, 249, 251, 251, 170, 144, 151, 52, 80, 105, 108, 207, 250, 242, 244, 87, 51, 11, 15, 172, 153, 238, 6, 218, 123, 135, 106, 21, 129, 117, 158, 66, 178, 126, 145, 238, 43, 127, 46, 43, 136, 248, 68, 62, 9, 141, 218, 124, 187, 243, 75, 146, 144, 236, 97, 75, 133, 20, 37, 117, 140, 153, 255, 9, 55, 106, 180, 155, 167, 33, 117, 23, 135, 53, 80, 98, 11, 172, 175, 107, 60, 198, 27, 240, 155, 14, 249, 3, 51, 59, 169, 97, 56, 151, 6, 10, 4, 81, 29, 250, 159, 177, 212, 216, 226, 138, 125, 185, 218, 29, 123, 179, 222] 10 :=
  expandKeyAux_succ_eq 5 _ _ _ _ (by decide) (by decide)

set_option maxRecDepth 2000 in
/-- Key-expansion iteration 36 on the all-zero key, by evaluation. -/
theorem kat_ek_step_36 :
    expandKeyAux 5 [0, 0, 0, 0, 0, 0, 0, 0, 0, 0, 0, 0, 0, 0, 0, 0, 98, 99, 99, 99, 98, 99, 99, 99, 98, 99, 99, 99, 98, 99, 99, 99, 155, 152, 152, 201, 249, 251, 251, 170, 155, 152, 152, 201, 249, 251, 251, 170, 144, 151, 52, 80, 105, 108, 207, 250, 242, 244, 87, 51, 11, 15, 172, 153, 238, 6, 218, 123, 135, 106, 21, 129, 117, 158, 66, 178, 126, 145, 238, 43, 127, 46, 43, 136, 248, 68, 62, 9, 141, 218, 124, 187, 243, 75, 146, 144, 236, 97, 75, 133, 20, 37, 117, 140, 153, 255, 9, 55, 106, 180, 155, 167, 33, 117, 23, 135, 53, 80, 98, 11, 172, 175, 107, 60, 198, 27, 240, 155, 14, 249, 3, 51, 59, 169, 97, 56, 151, 6, 10, 4, 81, 29, 250, 159, 177, 212, 216, 226, 138, 125, 185, 218, 29, 123, 179, 222] 10 =
      expandKeyAux 4 [0, 0, 0, 0, 0, 0, 0, 0, 0, 0, 0, 0, 0, 0, 0, 0, 98, 99, 99, 99, 98, 99, 99, 99, 98, 99, 99, 99, 98, 99, 99, 99, 155, 152, 152, 201, 249, 251, 251, 170, 155, 152, 152, 201, 249, 251, 251, 170, 144, 151, 52, 80, 105, 108, 207, 250, 242, 244, 87, 51, 11, 15, 172, 153, 238, 6, 218, 123, 135, 106, 21, 129, 117, 158, 66, 178, 126, 145, 238, 43, 127, 46, 43, 136, 248, 68, 62, 9, 141, 218, 124, 187, 243, 75, 146, 144, 236, 97, 75, 133, 20, 37, 117, 140, 153, 255, 9, 55, 106, 180, 155, 167, 33, 117, 23, 135, 53, 80, 98, 11, 172, 175, 107, 60, 198, 27, 240, 155, 14, 249, 3, 51, 59, 169, 97, 56, 151, 6, 10, 4, 81, 29, 250, 159, 177, 212, 216, 226, 138, 125, 185, 218, 29, 123, 179, 222, 76, 102, 73, 65] 10 :=
  expandKeyAux_succ_eq 4 _ _ _ _ (by decide) (by decide)

set_option maxRecDepth 2000 in
/-- Key-expansion iteration 37 on the all-zero key, by evaluation. -/
theorem kat_ek_step_37 :
    expandKeyAux 4 [0, 0, 0, 0, 0, 0, 0, 0, 0, 0, 0, 0, 0, 0, 0, 0, 98, 99, 99, 99, 98, 99, 99, 99, 98, 99, 99, 99, 98, 99, 99, 99, 155, 152, 152, 201, 249, 251, 251, 170, 155, 152, 152, 201, 249, 251, 251, 170, 144, 151, 52, 80, 105, 108, 207, 250, 242, 244, 87, 51, 11, 15, 172, 153, 238, 6, 218, 123, 135, 106, 21, 129, 117, 158, 66, 178, 126, 145, 238, 43, 127, 46, 43, 136, 248, 68, 62, 9, 141, 218, 124, 187, 243, 75, 146, 144, 236, 97, 75, 133, 20, 37, 117, 140, 153, 255, 9, 55, 106, 180, 155, 167, 33, 117, 23, 135, 53, 80, 98, 11, 172, 175, 107, 60, 198, 27, 240, 155, 14, 249, 3, 51, 59, 169, 97, 56, 151, 6, 10, 4, 81, 29, 250, 159, 177, 212, 216, 226, 138, 125, 185, 218, 29, 123, 179, 222, 76, 102, 73, 65] 10 =
      expandKeyAux 3 [0, 0, 0, 0, 0, 0, 0, 0, 0, 0, 0, 0, 0, 0, 0, 0, 98, 99, 99, 99, 98, 99, 99, 99, 98, 99, 99, 99, 98, 99, 99, 99, 155, 152, 152, 201, 249, 251, 251, 170, 155, 152, 152, 201, 249, 251, 251, 170, 144, 151, 52, 80, 105, 108, 207, 250, 242, 244, 87, 51, 11, 15, 172, 153, 238, 6, 218, 123, 135, 106, 21, 129, 117, 158, 66, 178, 126, 145, 238, 43, 127, 46, 43, 136, 248, 68, 62, 9, 141, 218, 124, 187, 243, 75, 146, 144, 236, 97, 75, 133, 20, 37, 117, 140, 153, 255, 9, 55, 106, 180, 155, 167, 33, 117, 23, 135, 53, 80, 98, 11, 172, 175, 107, 60, 198, 27, 240, 155, 14, 249, 3, 51, 59, 169, 97, 56, 151, 6, 10, 4, 81, 29, 250, 159, 177, 212, 216, 226, 138, 125, 185, 218, 29, 123, 179, 222, 76, 102, 73, 65, 180, 239, 91, 203] 11 :=
  expandKeyAux_succ_eq 3 _ _ _ _ (by decide) (by decide)

set_option maxRecDepth 2000 in
/-- Key-expansion iteration 38 on the all-zero key, by evaluation. -/
theorem kat_ek_step_38 :
    expandKeyAux 3 [0, 0, 0, 0, 0, 0, 0, 0, 0, 0, 0, 0, 0, 0, 0, 0, 98, 99, 99, 99, 98, 99, 99, 99, 98, 99, 99, 99, 98, 99, 99, 99, 155, 152, 152, 201, 249, 251, 251, 170, 155, 152, 152, 201, 249, 251, 251, 170, 144, 151, 52, 80, 105, 108, 207, 250, 242, 244, 87, 51, 11, 15, 172, 153, 238, 6, 218, 123, 135, 106, 21, 129, 117, 158, 66, 178, 126, 145, 238, 43, 127, 46, 43, 136, 248, 68, 62, 9, 141, 218, 124, 187, 243, 75, 146, 144, 236, 97, 75, 133, 20, 37, 117, 140, 153, 255, 9, 55, 106, 180, 155, 167, 33, 117, 23, 135, 53, 80, 98, 11, 172, 175, 107, 60, 198, 27, 240, 155, 14, 249, 3, 51, 59, 169, 97, 56, 151, 6, 10, 4, 81, 29, 250, 159, 177, 212, 216, 226, 138, 125, 185, 218, 29, 123, 179, 222, 76, 102, 73, 65, 180, 239, 91, 203] 11 =
      expandKeyAux 2 [0, 0, 0, 0, 0, 0, 0, 0, 0, 0, 0, 0, 0, 0, 0, 0, 98, 99, 99, 99, 98, 99, 99, 99, 98, 99, 99, 99, 98, 99, 99, 99, 155, 152, 152, 201, 249, 251, 251, 170, 155, 152, 152, 201, 249, 251, 251, 170, 144, 151, 52, 80, 105, 108, 207, 250, 242, 244, 87, 51, 11, 15, 172, 153, 238, 6, 218, 123, 135, 106, 21, 129, 117, 158, 66, 178, 126, 145, 238, 43, 127, 46, 43, 136, 248, 68, 62, 9, 141, 218, 124, 187, 243, 75, 146, 144, 236, 97, 75, 133, 20, 37, 117, 140, 153, 255, 9, 55, 106, 180, 155, 167, 33, 117, 23, 135, 53, 80, 98, 11, 172, 175, 107, 60, 198, 27, 240, 155, 14, 249, 3, 51, 59, 169, 97, 56, 151, 6, 10, 4, 81, 29, 250, 159, 177, 212, 216, 226, 138, 125, 185, 218, 29, 123, 179, 222, 76, 102, 73, 65, 180, 239, 91, 203, 62, 146, 226, 17] 11 :=
  expandKeyAux_succ_eq 2 _ _ _ _ (by decide) (by decide)

set_option maxRecDepth 2000 in
/-- Key-expansion iteration 39 on the all-zero key, by evaluation. -/
theorem kat_ek_step_39 :
    expandKeyAux 2 [0, 0, 0, 0, 0, 0, 0, 0, 0, 0, 0, 0, 0, 0, 0, 0, 98, 99, 99, 99, 98, 99, 99, 99, 98, 99, 99, 99, 98, 99, 99, 99, 155, 152, 152, 201, 249, 251, 251, 170, 155, 152, 152, 201, 249, 251, 251, 170, 144, 151, 52, 80, 105, 108, 207, 250, 242, 244, 87, 51, 11, 15, 172, 153, 238, 6, 218, 123, 135, 106, 21, 129, 117, 158, 66, 178, 126, 145, 238, 43, 127, 46, 43, 136, 248, 68, 62, 9, 141, 218, 124, 187, 243, 75, 146, 144, 236, 97, 75, 133, 20, 37, 117, 140, 153, 255, 9, 55, 106, 180, 155, 167, 33, 117, 23, 135, 53, 80, 98, 11, 172, 175, 107, 60, 198, 27, 240, 155, 14, 249, 3, 51, 59, 169, 97, 56, 151, 6, 10, 4, 81, 29, 250, 159, 177, 212, 216, 226, 138, 125, 185, 218, 29, 123, 179, 222, 76, 102, 73, 65, 180, 239, 91, 203, 62, 146, 226, 17] 11 =
      expandKeyAux 1 [0, 0, 0, 0, 0, 0, 0, 0, 0, 0, 0, 0, 0, 0, 0, 0, 98, 99, 99, 99, 98, 99, 99, 99, 98, 99, 99, 99, 98, 99, 99, 99, 155, 152, 152, 201, 249, 251, 251, 170, 155, 152, 152, 201, 249, 251, 251, 170, 144, 151, 52, 80, 105, 108, 207, 250, 242, 244, 87, 51, 11, 15, 172, 153, 238, 6, 218, 123, 135, 106, 21, 129, 117, 158, 66, 178, 126, 145, 238, 43, 127, 46, 43, 136, 248, 68, 62, 9, 141, 218, 124, 187, 243, 75, 146, 144, 236, 97, 75, 133, 20, 37, 117, 140, 153, 255, 9, 55, 106, 180, 155, 167, 33, 117, 23, 135, 53, 80, 98, 11, 172, 175, 107, 60, 198, 27, 240, 155, 14, 249, 3, 51, 59, 169, 97, 56, 151, 6, 10, 4, 81, 29, 250, 159, 177, 212, 216, 226, 138, 125, 185, 218, 29, 123, 179, 222, 76, 102, 73, 65, 180, 239, 91, 203, 62, 146, 226, 17, 35, 233, 81, 207] 11 :=
  expandKeyAux_succ_eq 1 _ _ _ _ (by decide) (by decide)

set_option maxRecDepth 2000 in
/-- Key-expansion iteration 40 on the all-zero key, by evaluation. -/
theorem kat_ek_step_40 :
    expandKeyAux 1 [0, 0, 0, 0, 0, 0, 0, 0, 0, 0, 0, 0, 0, 0, 0, 0, 98, 99, 99, 99, 98, 99, 99, 99, 98, 99, 99, 99, 98, 99, 99, 99, 155, 152, 152, 201, 249, 251, 251, 170, 155, 152, 152, 201, 249, 251, 251, 170, 144, 151, 52, 80, 105, 108, 207, 250, 242, 244, 87, 51, 11, 15, 172, 153, 238, 6, 218, 123, 135, 106, 21, 129, 117, 158, 66, 178, 126, 145, 238, 43, 127, 46, 43, 136, 248, 68, 62, 9, 141, 218, 124, 187, 243, 75, 146, 144, 236, 97, 75, 133, 20, 37, 117, 140, 153, 255, 9, 55, 106, 180, 155, 167, 33, 117, 23, 135, 53, 80, 98, 11, 172, 175, 107, 60, 198, 27, 240, 155, 14, 249, 3, 51, 59, 169, 97, 56, 151, 6, 10, 4, 81, 29, 250, 159, 177, 212, 216, 226, 138, 125, 185, 218, 29, 123, 179, 222, 76, 102, 73, 65, 180, 239, 91, 203, 62, 146, 226, 17, 35, 233, 81, 207] 11 =
      expandKeyAux 0 [0, 0, 0, 0, 0, 0, 0, 0, 0, 0, 0, 0, 0, 0, 0, 0, 98, 99, 99, 99, 98, 99, 99, 99, 98, 99, 99, 99, 98, 99, 99, 99, 155, 152, 152, 201, 249, 251, 251, 170, 155, 152, 152, 201, 249, 251, 251, 170, 144, 151, 52, 80, 105, 108, 207, 250, 242, 244, 87, 51, 11, 15, 172, 153, 238, 6, 218, 123, 135, 106, 21, 129, 117, 158, 66, 178, 126, 145, 238, 43, 127, 46, 43, 136, 248, 68, 62, 9, 141, 218, 124, 187, 243, 75, 146, 144, 236, 97, 75, 133, 20, 37, 117, 140, 153, 255, 9, 55, 106, 180, 155, 167, 33, 117, 23, 135, 53, 80, 98, 11, 172, 175, 107, 60, 198, 27, 240, 155, 14, 249, 3, 51, 59, 169, 97, 56, 151, 6, 10, 4, 81, 29, 250, 159, 177, 212, 216, 226, 138, 125, 185, 218, 29, 123, 179, 222, 76, 102, 73, 65, 180, 239, 91, 203, 62, 146, 226, 17, 35, 233, 81, 207, 111, 143, 24, 142] 11 :=
  expandKeyAux_succ_eq 0 _ _ _ _ (by decide) (by decide)

/-- The expanded all-zero key, assembled from the 40 loop iterations. -/
theorem kat_expandKey_zero :
    expandKey (List.replicate 16 0) =
      [0, 0, 0, 0, 0, 0, 0, 0, 0, 0, 0, 0, 0, 0, 0, 0, 98, 99, 99, 99, 98, 99, 99, 99, 98, 99, 99, 99, 98, 99, 99, 99, 155, 152, 152, 201, 249, 251, 251, 170, 155, 152, 152, 201, 249, 251, 251, 170, 144, 151, 52, 80, 105, 108, 207, 250, 242, 244, 87, 51, 11, 15, 172, 153, 238, 6, 218, 123, 135, 106, 21, 129, 117, 158, 66, 178, 126, 145, 238, 43, 127, 46, 43, 136, 248, 68, 62, 9, 141, 218, 124, 187, 243, 75, 146, 144, 236, 97, 75, 133, 20, 37, 117, 140, 153, 255, 9, 55, 106, 180, 155, 167, 33, 117, 23, 135, 53, 80, 98, 11, 172, 175, 107, 60, 198, 27, 240, 155, 14, 249, 3, 51, 59, 169, 97, 56, 151, 6, 10, 4, 81, 29, 250, 159, 177, 212, 216, 226, 138, 125, 185, 218, 29, 123, 179, 222, 76, 102, 73, 65, 180, 239, 91, 203, 62, 146, 226, 17, 35, 233, 81, 207, 111, 143, 24, 142] := by
  show expandKeyAux 40 [0, 0, 0, 0, 0, 0, 0, 0, 0, 0, 0, 0, 0, 0, 0, 0] 1 =
    [0, 0, 0, 0, 0, 0, 0, 0, 0, 0, 0, 0, 0, 0, 0, 0, 98, 99, 99, 99, 98, 99, 99, 99, 98, 99, 99, 99, 98, 99, 99, 99, 155, 152, 152, 201, 249, 251, 251, 170, 155, 152, 152, 201, 249, 251, 251, 170, 144, 151, 52, 80, 105, 108, 207, 250, 242, 244, 87, 51, 11, 15, 172, 153, 238, 6, 218, 123, 135, 106, 21, 129, 117, 158, 66, 178, 126, 145, 238, 43, 127, 46, 43, 136, 248, 68, 62, 9, 141, 218, 124, 187, 243, 75, 146, 144, 236, 97, 75, 133, 20, 37, 117, 140, 153, 255, 9, 55, 106, 180, 155, 167, 33, 117, 23, 135, 53, 80, 98, 11, 172, 175, 107, 60, 198, 27, 240, 155, 14, 249, 3, 51, 59, 169, 97, 56, 151, 6, 10, 4, 81, 29, 250, 159, 177, 212, 216, 226, 138, 125, 185, 218, 29, 123, 179, 222, 76, 102, 73, 65, 180, 239, 91, 203, 62, 146, 226, 17, 35, 233, 81, 207, 111, 143, 24, 142]
  rw [kat_ek_step_1, kat_ek_step_2, kat_ek_step_3, kat_ek_step_4, kat_ek_step_5, kat_ek_step_6, kat_ek_step_7, kat_ek_step_8, kat_ek_step_9, kat_ek_step_10, kat_ek_step_11, kat_ek_step_12, kat_ek_step_13, kat_ek_step_14, kat_ek_step_15, kat_ek_step_16, kat_ek_step_17, kat_ek_step_18, kat_ek_step_19, kat_ek_step_20, kat_ek_step_21, kat_ek_step_22, kat_ek_step_23, kat_ek_step_24, kat_ek_step_25, kat_ek_step_26, kat_ek_step_27, kat_ek_step_28, kat_ek_step_29, kat_ek_step_30, kat_ek_step_31, kat_ek_step_32, kat_ek_step_33, kat_ek_step_34, kat_ek_step_35, kat_ek_step_36, kat_ek_step_37, kat_ek_step_38, kat_ek_step_39, kat_ek_step_40]
  rfl

set_option maxRecDepth 2000 in
/-- Initial AddRoundKey of the all-zero block, by evaluation. -/
theorem kat_round_0 :
    addRoundKey (populateState (List.replicate 16 0))
      (populateRoundKey [0, 0, 0, 0, 0, 0, 0, 0, 0, 0, 0, 0, 0, 0, 0, 0, 98, 99, 99, 99, 98, 99, 99, 99, 98, 99, 99, 99, 98, 99, 99, 99, 155, 152, 152, 201, 249, 251, 251, 170, 155, 152, 152, 201, 249, 251, 251, 170, 144, 151, 52, 80, 105, 108, 207, 250, 242, 244, 87, 51, 11, 15, 172, 153, 238, 6, 218, 123, 135, 106, 21, 129, 117, 158, 66, 178, 126, 145, 238, 43, 127, 46, 43, 136, 248, 68, 62, 9, 141, 218, 124, 187, 243, 75, 146, 144, 236, 97, 75, 133, 20, 37, 117, 140, 153, 255, 9, 55, 106, 180, 155, 167, 33, 117, 23, 135, 53, 80, 98, 11, 172, 175, 107, 60, 198, 27, 240, 155, 14, 249, 3, 51, 59, 169, 97, 56, 151, 6, 10, 4, 81, 29, 250, 159, 177, 212, 216, 226, 138, 125, 185, 218, 29, 123, 179, 222, 76, 102, 73, 65, 180, 239, 91, 203, 62, 146, 226, 17, 35, 233, 81, 207, 111, 143, 24, 142] 0) =
      [[0, 0, 0, 0], [0, 0, 0, 0], [0, 0, 0, 0], [0, 0, 0, 0]] := by
  decide

set_option maxRecDepth 2000 in
/-- Full round 1 of the zero-key known-answer computation, by evaluation. -/
theorem kat_round_1 :
    addRoundKey (mixColumns (shiftRows (subBytes
      [[0, 0, 0, 0], [0, 0, 0, 0], [0, 0, 0, 0], [0, 0, 0, 0]])))
      (populateRoundKey [0, 0, 0, 0, 0, 0, 0, 0, 0, 0, 0, 0, 0, 0, 0, 0, 98, 99, 99, 99, 98, 99, 99, 99, 98, 99, 99, 99, 98, 99, 99, 99, 155, 152, 152, 201, 249, 251, 251, 170, 155, 152, 152, 201, 249, 251, 251, 170, 144, 151, 52, 80, 105, 108, 207, 250, 242, 244, 87, 51, 11, 15, 172, 153, 238, 6, 218, 123, 135, 106, 21, 129, 117, 158, 66, 178, 126, 145, 238, 43, 127, 46, 43, 136, 248, 68, 62, 9, 141, 218, 124, 187, 243, 75, 146, 144, 236, 97, 75, 133, 20, 37, 117, 140, 153, 255, 9, 55, 106, 180, 155, 167, 33, 117, 23, 135, 53, 80, 98, 11, 172, 175, 107, 60, 198, 27, 240, 155, 14, 249, 3, 51, 59, 169, 97, 56, 151, 6, 10, 4, 81, 29, 250, 159, 177, 212, 216, 226, 138, 125, 185, 218, 29, 123, 179, 222, 76, 102, 73, 65, 180, 239, 91, 203, 62, 146, 226, 17, 35, 233, 81, 207, 111, 143, 24, 142] 1) =
      [[1, 1, 1, 1], [0, 0, 0, 0], [0, 0, 0, 0], [0, 0, 0, 0]] := by
  decide

set_option maxRecDepth 2000 in
/-- Full round 2 of the zero-key known-answer computation, by evaluation. -/
theorem kat_round_2 :
    addRoundKey (mixColumns (shiftRows (subBytes
      [[1, 1, 1, 1], [0, 0, 0, 0], [0, 0, 0, 0], [0, 0, 0, 0]])))
      (populateRoundKey [0, 0, 0, 0, 0, 0, 0, 0, 0, 0, 0, 0, 0, 0, 0, 0, 98, 99, 99, 99, 98, 99, 99, 99, 98, 99, 99, 99, 98, 99, 99, 99, 155, 152, 152, 201, 249, 251, 251, 170, 155, 152, 152, 201, 249, 251, 251, 170, 144, 151, 52, 80, 105, 108, 207, 250, 242, 244, 87, 51, 11, 15, 172, 153, 238, 6, 218, 123, 135, 106, 21, 129, 117, 158, 66, 178, 126, 145, 238, 43, 127, 46, 43, 136, 248, 68, 62, 9, 141, 218, 124, 187, 243, 75, 146, 144, 236, 97, 75, 133, 20, 37, 117, 140, 153, 255, 9, 55, 106, 180, 155, 167, 33, 117, 23, 135, 53, 80, 98, 11, 172, 175, 107, 60, 198, 27, 240, 155, 14, 249, 3, 51, 59, 169, 97, 56, 151, 6, 10, 4, 81, 29, 250, 159, 177, 212, 216, 226, 138, 125, 185, 218, 29, 123, 179, 222, 76, 102, 73, 65, 180, 239, 91, 203, 62, 146, 226, 17, 35, 233, 81, 207, 111, 143, 24, 142] 2) =
      [[198, 164, 198, 164], [228, 135, 228, 135], [228, 135, 228, 135], [139, 232, 139, 232]] := by
  decide

set_option maxRecDepth 2000 in
/-- Full round 3 of the zero-key known-answer computation, by evaluation. -/
theorem kat_round_3 :
    addRoundKey (mixColumns (shiftRows (subBytes
      [[198, 164, 198, 164], [228, 135, 228, 135], [228, 135, 228, 135], [139, 232, 139, 232]])))
      (populateRoundKey [0, 0, 0, 0, 0, 0, 0, 0, 0, 0, 0, 0, 0, 0, 0, 0, 98, 99, 99, 99, 98, 99, 99, 99, 98, 99, 99, 99, 98, 99, 99, 99, 155, 152, 152, 201, 249, 251, 251, 170, 155, 152, 152, 201, 249, 251, 251, 170, 144, 151, 52, 80, 105, 108, 207, 250, 242, 244, 87, 51, 11, 15, 172, 153, 238, 6, 218, 123, 135, 106, 21, 129, 117, 158, 66, 178, 126, 145, 238, 43, 127, 46, 43, 136, 248, 68, 62, 9, 141, 218, 124, 187, 243, 75, 146, 144, 236, 97, 75, 133, 20, 37, 117, 140, 153, 255, 9, 55, 106, 180, 155, 167, 33, 117, 23, 135, 53, 80, 98, 11, 172, 175, 107, 60, 198, 27, 240, 155, 14, 249, 3, 51, 59, 169, 97, 56, 151, 6, 10, 4, 81, 29, 250, 159, 177, 212, 216, 226, 138, 125, 185, 218, 29, 123, 179, 222, 76, 102, 73, 65, 180, 239, 91, 203, 62, 146, 226, 17, 35, 233, 81, 207, 111, 143, 24, 142] 3) =
      [[40, 106, 74, 8], [45, 243, 78, 144], [243, 134, 144, 229], [196, 37, 167, 70]] := by
  decide

set_option maxRecDepth 2000 in
/-- Full round 4 of the zero-key known-answer computation, by evaluation. -/
theorem kat_round_4 :
    addRoundKey (mixColumns (shiftRows (subBytes
      [[40, 106, 74, 8], [45, 243, 78, 144], [243, 134, 144, 229], [196, 37, 167, 70]])))
      (populateRoundKey [0, 0, 0, 0, 0, 0, 0, 0, 0, 0, 0, 0, 0, 0, 0, 0, 98, 99, 99, 99, 98, 99, 99, 99, 98, 99, 99, 99, 98, 99, 99, 99, 155, 152, 152, 201, 249, 251, 251, 170, 155, 152, 152, 201, 249, 251, 251, 170, 144, 151, 52, 80, 105, 108, 207, 250, 242, 244, 87, 51, 11, 15, 172, 153, 238, 6, 218, 123, 135, 106, 21, 129, 117, 158, 66, 178, 126, 145, 238, 43, 127, 46, 43, 136, 248, 68, 62, 9, 141, 218, 124, 187, 243, 75, 146, 144, 236, 97, 75, 133, 20, 37, 117, 140, 153, 255, 9, 55, 106, 180, 155, 167, 33, 117, 23, 135, 53, 80, 98, 11, 172, 175, 107, 60, 198, 27, 240, 155, 14, 249, 3, 51, 59, 169, 97, 56, 151, 6, 10, 4, 81, 29, 250, 159, 177, 212, 216, 226, 138, 125, 185, 218, 29, 123, 179, 222, 76, 102, 73, 65, 180, 239, 91, 203, 62, 146, 226, 17, 35, 233, 81, 207, 111, 143, 24, 142] 4) =
      [[171, 55, 80, 117], [210, 90, 160, 154], [205, 181, 175, 106], [254, 73, 192, 95]] := by
  decide

set_option maxRecDepth 2000 in
/-- Full round 5 of the zero-key known-answer computation, by evaluation. -/
theorem kat_round_5 :
    addRoundKey (mixColumns (shiftRows (subBytes
      [[171, 55, 80, 117], [210, 90, 160, 154], [205, 181, 175, 106], [254, 73, 192, 95]])))
      (populateRoundKey [0, 0, 0, 0, 0, 0, 0, 0, 0, 0, 0, 0, 0, 0, 0, 0, 98, 99, 99, 99, 98, 99, 99, 99, 98, 99, 99, 99, 98, 99, 99, 99, 155, 152, 152, 201, 249, 251, 251, 170, 155, 152, 152, 201, 249, 251, 251, 170, 144, 151, 52, 80, 105, 108, 207, 250, 242, 244, 87, 51, 11, 15, 172, 153, 238, 6, 218, 123, 135, 106, 21, 129, 117, 158, 66, 178, 126, 145, 238, 43, 127, 46, 43, 136, 248, 68, 62, 9, 141, 218, 124, 187, 243, 75, 146, 144, 236, 97, 75, 133, 20, 37, 117, 140, 153, 255, 9, 55, 106, 180, 155, 167, 33, 117, 23, 135, 53, 80, 98, 11, 172, 175, 107, 60, 198, 27, 240, 155, 14, 249, 3, 51, 59, 169, 97, 56, 151, 6, 10, 4, 81, 29, 250, 159, 177, 212, 216, 226, 138, 125, 185, 218, 29, 123, 179, 222, 76, 102, 73, 65, 180, 239, 91, 203, 62, 146, 226, 17, 35, 233, 81, 207, 111, 143, 24, 142] 5) =
      [[212, 85, 126, 121], [111, 184, 5, 121], [79, 150, 187, 222], [108, 51, 61, 35]] := by
  decide

set_option maxRecDepth 2000 in
/-- Full round 6 of the zero-key known-answer computation, by evaluation. -/
theorem kat_round_6 :
    addRoundKey (mixColumns (shiftRows (subBytes
      [[212, 85, 126, 121], [111, 184, 5, 121], [79, 150, 187, 222], [108, 51, 61, 35]])))
      (populateRoundKey [0, 0, 0, 0, 0, 0, 0, 0, 0, 0, 0, 0, 0, 0, 0, 0, 98, 99, 99, 99, 98, 99, 99, 99, 98, 99, 99, 99, 98, 99, 99, 99, 155, 152, 152, 201, 249, 251, 251, 170, 155, 152, 152, 201, 249, 251, 251, 170, 144, 151, 52, 80, 105, 108, 207, 250, 242, 244, 87, 51, 11, 15, 172, 153, 238, 6, 218, 123, 135, 106, 21, 129, 117, 158, 66, 178, 126, 145, 238, 43, 127, 46, 43, 136, 248, 68, 62, 9, 141, 218, 124, 187, 243, 75, 146, 144, 236, 97, 75, 133, 20, 37, 117, 140, 153, 255, 9, 55, 106, 180, 155, 167, 33, 117, 23, 135, 53, 80, 98, 11, 172, 175, 107, 60, 198, 27, 240, 155, 14, 249, 3, 51, 59, 169, 97, 56, 151, 6, 10, 4, 81, 29, 250, 159, 177, 212, 216, 226, 138, 125, 185, 218, 29, 123, 179, 222, 76, 102, 73, 65, 180, 239, 91, 203, 62, 146, 226, 17, 35, 233, 81, 207, 111, 143, 24, 142] 6) =
      [[4, 7, 226, 73], [242, 120, 47, 197], [202, 40, 1, 215], [151, 69, 150, 16]] := by
  decide

set_option maxRecDepth 2000 in
/-- Full round 7 of the zero-key known-answer computation, by evaluation. -/
theorem kat_round_7 :
    addRoundKey (mixColumns (shiftRows (subBytes
      [[4, 7, 226, 73], [242, 120, 47, 197], [202, 40, 1, 215], [151, 69, 150, 16]])))
      (populateRoundKey [0, 0, 0, 0, 0, 0, 0, 0, 0, 0, 0, 0, 0, 0, 0, 0, 98, 99, 99, 99, 98, 99, 99, 99, 98, 99, 99, 99, 98, 99, 99, 99, 155, 152, 152, 201, 249, 251, 251, 170, 155, 152, 152, 201, 249, 251, 251, 170, 144, 151, 52, 80, 105, 108, 207, 250, 242, 244, 87, 51, 11, 15, 172, 153, 238, 6, 218, 123, 135, 106, 21, 129, 117, 158, 66, 178, 126, 145, 238, 43, 127, 46, 43, 136, 248, 68, 62, 9, 141, 218, 124, 187, 243, 75, 146, 144, 236, 97, 75, 133, 20, 37, 117, 140, 153, 255, 9, 55, 106, 180, 155, 167, 33, 117, 23, 135, 53, 80, 98, 11, 172, 175, 107, 60, 198, 27, 240, 155, 14, 249, 3, 51, 59, 169, 97, 56, 151, 6, 10, 4, 81, 29, 250, 159, 177, 212, 216, 226, 138, 125, 185, 218, 29, 123, 179, 222, 76, 102, 73, 65, 180, 239, 91, 203, 62, 146, 226, 17, 35, 233, 81, 207, 111, 143, 24, 142] 7) =
      [[183, 29, 108, 148], [170, 37, 146, 229], [228, 45, 15, 129], [197, 79, 129, 80]] := by
  decide

set_option maxRecDepth 2000 in
/-- Full round 8 of the zero-key known-answer computation, by evaluation. -/
theorem kat_round_8 :
    addRoundKey (mixColumns (shiftRows (subBytes
      [[183, 29, 108, 148], [170, 37, 146, 229], [228, 45, 15, 129], [197, 79, 129, 80]])))
      (populateRoundKey [0, 0, 0, 0, 0, 0, 0, 0, 0, 0, 0, 0, 0, 0, 0, 0, 98, 99, 99, 99, 98, 99, 99, 99, 98, 99, 99, 99, 98, 99, 99, 99, 155, 152, 152, 201, 249, 251, 251, 170, 155, 152, 152, 201, 249, 251, 251, 170, 144, 151, 52, 80, 105, 108, 207, 250, 242, 244, 87, 51, 11, 15, 172, 153, 238, 6, 218, 123, 135, 106, 21, 129, 117, 158, 66, 178, 126, 145, 238, 43, 127, 46, 43, 136, 248, 68, 62, 9, 141, 218, 124, 187, 243, 75, 146, 144, 236, 97, 75, 133, 20, 37, 117, 140, 153, 255, 9, 55, 106, 180, 155, 167, 33, 117, 23, 135, 53, 80, 98, 11, 172, 175, 107, 60, 198, 27, 240, 155, 14, 249, 3, 51, 59, 169, 97, 56, 151, 6, 10, 4, 81, 29, 250, 159, 177, 212, 216, 226, 138, 125, 185, 218, 29, 123, 179, 222, 76, 102, 73, 65, 180, 239, 91, 203, 62, 146, 226, 17, 35, 233, 81, 207, 111, 143, 24, 142] 8) =
      [[35, 19, 170, 46], [231, 33, 192, 3], [140, 99, 198, 203], [60, 219, 87, 149]] := by
  decide

set_option maxRecDepth 2000 in
/-- Full round 9 of the zero-key known-answer computation, by evaluation. -/
theorem kat_round_9 :
    addRoundKey (mixColumns (shiftRows (subBytes
      [[35, 19, 170, 46], [231, 33, 192, 3], [140, 99, 198, 203], [60, 219, 87, 149]])))
      (populateRoundKey [0, 0, 0, 0, 0, 0, 0, 0, 0, 0, 0, 0, 0, 0, 0, 0, 98, 99, 99, 99, 98, 99, 99, 99, 98, 99, 99, 99, 98, 99, 99, 99, 155, 152, 152, 201, 249, 251, 251, 170, 155, 152, 152, 201, 249, 251, 251, 170, 144, 151, 52, 80, 105, 108, 207, 250, 242, 244, 87, 51, 11, 15, 172, 153, 238, 6, 218, 123, 135, 106, 21, 129, 117, 158, 66, 178, 126, 145, 238, 43, 127, 46, 43, 136, 248, 68, 62, 9, 141, 218, 124, 187, 243, 75, 146, 144, 236, 97, 75, 133, 20, 37, 117, 140, 153, 255, 9, 55, 106, 180, 155, 167, 33, 117, 23, 135, 53, 80, 98, 11, 172, 175, 107, 60, 198, 27, 240, 155, 14, 249, 3, 51, 59, 169, 97, 56, 151, 6, 10, 4, 81, 29, 250, 159, 177, 212, 216, 226, 138, 125, 185, 218, 29, 123, 179, 222, 76, 102, 73, 65, 180, 239, 91, 203, 62, 146, 226, 17, 35, 233, 81, 207, 111, 143, 24, 142] 9) =
      [[127, 81, 14, 41], [254, 165, 52, 41], [14, 102, 124, 236], [149, 53, 71, 203]] := by
  decide

set_option maxRecDepth 2000 in
/-- Final round and output conversion of the zero-key known-answer
computation, by evaluation. -/
theorem kat_round_10 :
    populateOutput (addRoundKey (shiftRows (subBytes
      [[127, 81, 14, 41], [254, 165, 52, 41], [14, 102, 124, 236], [149, 53, 71, 203]]))
      (populateRoundKey [0, 0, 0, 0, 0, 0, 0, 0, 0, 0, 0, 0, 0, 0, 0, 0, 98, 99, 99, 99, 98, 99, 99, 99, 98, 99, 99, 99, 98, 99, 99, 99, 155, 152, 152, 201, 249, 251, 251, 170, 155, 152, 152, 201, 249, 251, 251, 170, 144, 151, 52, 80, 105, 108, 207, 250, 242, 244, 87, 51, 11, 15, 172, 153, 238, 6, 218, 123, 135, 106, 21, 129, 117, 158, 66, 178, 126, 145, 238, 43, 127, 46, 43, 136, 248, 68, 62, 9, 141, 218, 124, 187, 243, 75, 146, 144, 236, 97, 75, 133, 20, 37, 117, 140, 153, 255, 9, 55, 106, 180, 155, 167, 33, 117, 23, 135, 53, 80, 98, 11, 172, 175, 107, 60, 198, 27, 240, 155, 14, 249, 3, 51, 59, 169, 97, 56, 151, 6, 10, 4, 81, 29, 250, 159, 177, 212, 216, 226, 138, 125, 185, 218, 29, 123, 179, 222, 76, 102, 73, 65, 180, 239, 91, 203, 62, 146, 226, 17, 35, 233, 81, 207, 111, 143, 24, 142] 10)) =
      [102, 233, 75, 212, 239, 138, 44, 59, 136, 76, 250, 89, 202, 52, 43, 46] := by
  decide

/-- Claim C1: encrypting the all-zero 16-byte plaintext block under the
all-zero 16-byte key yields exactly the ciphertext bytes
`66 e9 4b d4 ef 8a 2c 3b 88 4c fa 59 ca 34 2b 2e`.  The proof runs the
cipher one round at a time through concrete intermediate states. -/
theorem encrypt_zero_key_zero_block_kat :
    aesEncrypt (List.replicate 16 0) (List.replicate 16 0) =
      [0x66, 0xe9, 0x4b, 0xd4, 0xef, 0x8a, 0x2c, 0x3b,
       0x88, 0x4c, 0xfa, 0x59, 0xca, 0x34, 0x2b, 0x2e] := by
  show encryptBlock (expandKey (List.replicate 16 0)) (List.replicate 16 0) =
    [102, 233, 75, 212, 239, 138, 44, 59, 136, 76, 250, 89, 202, 52, 43, 46]
  rw [kat_expandKey_zero]
  show populateOutput (addRoundKey (shiftRows (subBytes (addRoundKey (mixColumns (shiftRows (subBytes (addRoundKey (mixColumns (shiftRows (subBytes (addRoundKey (mixColumns (shiftRows (subBytes (addRoundKey (mixColumns (shiftRows (subBytes (addRoundKey (mixColumns (shiftRows (subBytes (addRoundKey (mixColumns (shiftRows (subBytes (addRoundKey (mixColumns (shiftRows (subBytes (addRoundKey (mixColumns (shiftRows (subBytes (addRoundKey (mixColumns (shiftRows (subBytes (addRoundKey (populateState (List.replicate 16 0)) (populateRoundKey [0, 0, 0, 0, 0, 0, 0, 0, 0, 0, 0, 0, 0, 0, 0, 0, 98, 99, 99, 99, 98, 99, 99, 99, 98, 99, 99, 99, 98, 99, 99, 99, 155, 152, 152, 201, 249, 251, 251, 170, 155, 152, 152, 201, 249, 251, 251, 170, 144, 151, 52, 80, 105, 108, 207, 250, 242, 244, 87, 51, 11, 15, 172, 153, 238, 6, 218, 123, 135, 106, 21, 129, 117, 158, 66, 178, 126, 145, 238, 43, 127, 46, 43, 136, 248, 68, 62, 9, 141, 218, 124, 187, 243, 75, 146, 144, 236, 97, 75, 133, 20, 37, 117, 140, 153, 255, 9, 55, 106, 180, 155, 167, 33, 117, 23, 135, 53, 80, 98, 11, 172, 175, 107, 60, 198, 27, 240, 155, 14, 249, 3, 51, 59, 169, 97, 56, 151, 6, 10, 4, 81, 29, 250, 159, 177, 212, 216, 226, 138, 125, 185, 218, 29, 123, 179, 222, 76, 102, 73, 65, 180, 239, 91, 203, 62, 146, 226, 17, 35, 233, 81, 207, 111, 143, 24, 142] 0))))) (populateRoundKey [0, 0, 0, 0, 0, 0, 0, 0, 0, 0, 0, 0, 0, 0, 0, 0, 98, 99, 99, 99, 98, 99, 99, 99, 98, 99, 99, 99, 98, 99, 99, 99, 155, 152, 152, 201, 249, 251, 251, 170, 155, 152, 152, 201, 249, 251, 251, 170, 144, 151, 52, 80, 105, 108, 207, 250, 242, 244, 87, 51, 11, 15, 172, 153, 238, 6, 218, 123, 135, 106, 21, 129, 117, 158, 66, 178, 126, 145, 238, 43, 127, 46, 43, 136, 248, 68, 62, 9, 141, 218, 124, 187, 243, 75, 146, 144, 236, 97, 75, 133, 20, 37, 117, 140, 153, 255, 9, 55, 106, 180, 155, 167, 33, 117, 23, 135, 53, 80, 98, 11, 172, 175, 107, 60, 198, 27, 240, 155, 14, 249, 3, 51, 59, 169, 97, 56, 151, 6, 10, 4, 81, 29, 250, 159, 177, 212, 216, 226, 138, 125, 185, 218, 29, 123, 179, 222, 76, 102, 73, 65, 180, 239, 91, 203, 62, 146, 226, 17, 35, 233, 81, 207, 111, 143, 24, 142] 1))))) (populateRoundKey [0, 0, 0, 0, 0, 0, 0, 0, 0, 0, 0, 0, 0, 0, 0, 0, 98, 99, 99, 99, 98, 99, 99, 99, 98, 99, 99, 99, 98, 99, 99, 99, 155, 152, 152, 201, 249, 251, 251, 170, 155, 152, 152, 201, 249, 251, 251, 170, 144, 151, 52, 80, 105, 108, 207, 250, 242, 244, 87, 51, 11, 15, 172, 153, 238, 6, 218, 123, 135, 106, 21, 129, 117, 158, 66, 178, 126, 145, 238, 43, 127, 46, 43, 136, 248, 68, 62, 9, 141, 218, 124, 187, 243, 75, 146, 144, 236, 97, 75, 133, 20, 37, 117, 140, 153, 255, 9, 55, 106, 180, 155, 167, 33, 117, 23, 135, 53, 80, 98, 11, 172, 175, 107, 60, 198, 27, 240, 155, 14, 249, 3, 51, 59, 169, 97, 56, 151, 6, 10, 4, 81, 29, 250, 159, 177, 212, 216, 226, 138, 125, 185, 218, 29, 123, 179, 222, 76, 102, 73, 65, 180, 239, 91, 203, 62, 146, 226, 17, 35, 233, 81, 207, 111, 143, 24, 142] 2))))) (populateRoundKey [0, 0, 0, 0, 0, 0, 0, 0, 0, 0, 0, 0, 0, 0, 0, 0, 98, 99, 99, 99, 98, 99, 99, 99, 98, 99, 99, 99, 98, 99, 99, 99, 155, 152, 152, 201, 249, 251, 251, 170, 155, 152, 152, 201, 249, 251, 251, 170, 144, 151, 52, 80, 105, 108, 207, 250, 242, 244, 87, 51, 11, 15, 172, 153, 238, 6, 218, 123, 135, 106, 21, 129, 117, 158, 66, 178, 126, 145, 238, 43, 127, 46, 43, 136, 248, 68, 62, 9, 141, 218, 124, 187, 243, 75, 146, 144, 236, 97, 75, 133, 20, 37, 117, 140, 153, 255, 9, 55, 106, 180, 155, 167, 33, 117, 23, 135, 53, 80, 98, 11, 172, 175, 107, 60, 198, 27, 240, 155, 14, 249, 3, 51, 59, 169, 97, 56, 151, 6, 10, 4, 81, 29, 250, 159, 177, 212, 216, 226, 138, 125, 185, 218, 29, 123, 179, 222, 76, 102, 73, 65, 180, 239, 91, 203, 62, 146, 226, 17, 35, 233, 81, 207, 111, 143, 24, 142] 3))))) (populateRoundKey [0, 0, 0, 0, 0, 0, 0, 0, 0, 0, 0, 0, 0, 0, 0, 0, 98, 99, 99, 99, 98, 99, 99, 99, 98, 99, 99, 99, 98, 99, 99, 99, 155, 152, 152, 201, 249, 251, 251, 170, 155, 152, 152, 201, 249, 251, 251, 170, 144, 151, 52, 80, 105, 108, 207, 250, 242, 244, 87, 51, 11, 15, 172, 153, 238, 6, 218, 123, 135, 106, 21, 129, 117, 158, 66, 178, 126, 145, 238, 43, 127, 46, 43, 136, 248, 68, 62, 9, 141, 218, 124, 187, 243, 75, 146, 144, 236, 97, 75, 133, 20, 37, 117, 140, 153, 255, 9, 55, 106, 180, 155, 167, 33, 117, 23, 135, 53, 80, 98, 11, 172, 175, 107, 60, 198, 27, 240, 155, 14, 249, 3, 51, 59, 169, 97, 56, 151, 6, 10, 4, 81, 29, 250, 159, 177, 212, 216, 226, 138, 125, 185, 218, 29, 123, 179, 222, 76, 102, 73, 65, 180, 239, 91, 203, 62, 146, 226, 17, 35, 233, 81, 207, 111, 143, 24, 142] 4))))) (populateRoundKey [0, 0, 0, 0, 0, 0, 0, 0, 0, 0, 0, 0, 0, 0, 0, 0, 98, 99, 99, 99, 98, 99, 99, 99, 98, 99, 99, 99, 98, 99, 99, 99, 155, 152, 152, 201, 249, 251, 251, 170, 155, 152, 152, 201, 249, 251, 251, 170, 144, 151, 52, 80, 105, 108, 207, 250, 242, 244, 87, 51, 11, 15, 172, 153, 238, 6, 218, 123, 135, 106, 21, 129, 117, 158, 66, 178, 126, 145, 238, 43, 127, 46, 43, 136, 248, 68, 62, 9, 141, 218, 124, 187, 243, 75, 146, 144, 236, 97, 75, 133, 20, 37, 117, 140, 153, 255, 9, 55, 106, 180, 155, 167, 33, 117, 23, 135, 53, 80, 98, 11, 172, 175, 107, 60, 198, 27, 240, 155, 14, 249, 3, 51, 59, 169, 97, 56, 151, 6, 10, 4, 81, 29, 250, 159, 177, 212, 216, 226, 138, 125, 185, 218, 29, 123, 179, 222, 76, 102, 73, 65, 180, 239, 91, 203, 62, 146, 226, 17, 35, 233, 81, 207, 111, 143, 24, 142] 5))))) (populateRoundKey [0, 0, 0, 0, 0, 0, 0, 0, 0, 0, 0, 0, 0, 0, 0, 0, 98, 99, 99, 99, 98, 99, 99, 99, 98, 99, 99, 99, 98, 99, 99, 99, 155, 152, 152, 201, 249, 251, 251, 170, 155, 152, 152, 201, 249, 251, 251, 170, 144, 151, 52, 80, 105, 108, 207, 250, 242, 244, 87, 51, 11, 15, 172, 153, 238, 6, 218, 123, 135, 106, 21, 129, 117, 158, 66, 178, 126, 145, 238, 43, 127, 46, 43, 136, 248, 68, 62, 9, 141, 218, 124, 187, 243, 75, 146, 144, 236, 97, 75, 133, 20, 37, 117, 140, 153, 255, 9, 55, 106, 180, 155, 167, 33, 117, 23, 135, 53, 80, 98, 11, 172, 175, 107, 60, 198, 27, 240, 155, 14, 249, 3, 51, 59, 169, 97, 56, 151, 6, 10, 4, 81, 29, 250, 159, 177, 212, 216, 226, 138, 125, 185, 218, 29, 123, 179, 222, 76, 102, 73, 65, 180, 239, 91, 203, 62, 146, 226, 17, 35, 233, 81, 207, 111, 143, 24, 142] 6))))) (populateRoundKey [0, 0, 0, 0, 0, 0, 0, 0, 0, 0, 0, 0, 0, 0, 0, 0, 98, 99, 99, 99, 98, 99, 99, 99, 98, 99, 99, 99, 98, 99, 99, 99, 155, 152, 152, 201, 249, 251, 251, 170, 155, 152, 152, 201, 249, 251, 251, 170, 144, 151, 52, 80, 105, 108, 207, 250, 242, 244, 87, 51, 11, 15, 172, 153, 238, 6, 218, 123, 135, 106, 21, 129, 117, 158, 66, 178, 126, 145, 238, 43, 127, 46, 43, 136, 248, 68, 62, 9, 141, 218, 124, 187, 243, 75, 146, 144, 236, 97, 75, 133, 20, 37, 117, 140, 153, 255, 9, 55, 106, 180, 155, 167, 33, 117, 23, 135, 53, 80, 98, 11, 172, 175, 107, 60, 198, 27, 240, 155, 14, 249, 3, 51, 59, 169, 97, 56, 151, 6, 10, 4, 81, 29, 250, 159, 177, 212, 216, 226, 138, 125, 185, 218, 29, 123, 179, 222, 76, 102, 73, 65, 180, 239, 91, 203, 62, 146, 226, 17, 35, 233, 81, 207, 111, 143, 24, 142] 7))))) (populateRoundKey [0, 0, 0, 0, 0, 0, 0, 0, 0, 0, 0, 0, 0, 0, 0, 0, 98, 99, 99, 99, 98, 99, 99, 99, 98, 99, 99, 99, 98, 99, 99, 99, 155, 152, 152, 201, 249, 251, 251, 170, 155, 152, 152, 201, 249, 251, 251, 170, 144, 151, 52, 80, 105, 108, 207, 250, 242, 244, 87, 51, 11, 15, 172, 153, 238, 6, 218, 123, 135, 106, 21, 129, 117, 158, 66, 178, 126, 145, 238, 43, 127, 46, 43, 136, 248, 68, 62, 9, 141, 218, 124, 187, 243, 75, 146, 144, 236, 97, 75, 133, 20, 37, 117, 140, 153, 255, 9, 55, 106, 180, 155, 167, 33, 117, 23, 135, 53, 80, 98, 11, 172, 175, 107, 60, 198, 27, 240, 155, 14, 249, 3, 51, 59, 169, 97, 56, 151, 6, 10, 4, 81, 29, 250, 159, 177, 212, 216, 226, 138, 125, 185, 218, 29, 123, 179, 222, 76, 102, 73, 65, 180, 239, 91, 203, 62, 146, 226, 17, 35, 233, 81, 207, 111, 143, 24, 142] 8))))) (populateRoundKey [0, 0, 0, 0, 0, 0, 0, 0, 0, 0, 0, 0, 0, 0, 0, 0, 98, 99, 99, 99, 98, 99, 99, 99, 98, 99, 99, 99, 98, 99, 99, 99, 155, 152, 152, 201, 249, 251, 251, 170, 155, 152, 152, 201, 249, 251, 251, 170, 144, 151, 52, 80, 105, 108, 207, 250, 242, 244, 87, 51, 11, 15, 172, 153, 238, 6, 218, 123, 135, 106, 21, 129, 117, 158, 66, 178, 126, 145, 238, 43, 127, 46, 43, 136, 248, 68, 62, 9, 141, 218, 124, 187, 243, 75, 146, 144, 236, 97, 75, 133, 20, 37, 117, 140, 153, 255, 9, 55, 106, 180, 155, 167, 33, 117, 23, 135, 53, 80, 98, 11, 172, 175, 107, 60, 198, 27, 240, 155, 14, 249, 3, 51, 59, 169, 97, 56, 151, 6, 10, 4, 81, 29, 250, 159, 177, 212, 216, 226, 138, 125, 185, 218, 29, 123, 179, 222, 76, 102, 73, 65, 180, 239, 91, 203, 62, 146, 226, 17, 35, 233, 81, 207, 111, 143, 24, 142] 9)))) (populateRoundKey [0, 0, 0, 0, 0, 0, 0, 0, 0, 0, 0, 0, 0, 0, 0, 0, 98, 99, 99, 99, 98, 99, 99, 99, 98, 99, 99, 99, 98, 99, 99, 99, 155, 152, 152, 201, 249, 251, 251, 170, 155, 152, 152, 201, 249, 251, 251, 170, 144, 151, 52, 80, 105, 108, 207, 250, 242, 244, 87, 51, 11, 15, 172, 153, 238, 6, 218, 123, 135, 106, 21, 129, 117, 158, 66, 178, 126, 145, 238, 43, 127, 46, 43, 136, 248, 68, 62, 9, 141, 218, 124, 187, 243, 75, 146, 144, 236, 97, 75, 133, 20, 37, 117, 140, 153, 255, 9, 55, 106, 180, 155, 167, 33, 117, 23, 135, 53, 80, 98, 11, 172, 175, 107, 60, 198, 27, 240, 155, 14, 249, 3, 51, 59, 169, 97, 56, 151, 6, 10, 4, 81, 29, 250, 159, 177, 212, 216, 226, 138, 125, 185, 218, 29, 123, 179, 222, 76, 102, 73, 65, 180, 239, 91, 203, 62, 146, 226, 17, 35, 233, 81, 207, 111, 143, 24, 142] 10)) =
    [102, 233, 75, 212, 239, 138, 44, 59, 136, 76, 250, 89, 202, 52, 43, 46]
  rw [kat_round_0, kat_round_1, kat_round_2, kat_round_3, kat_round_4, kat_round_5,
    kat_round_6, kat_round_7, kat_round_8, kat_round_9]
  exact kat_round_10

/-- Claim C2: for every expanded key and every input block, the encryption
pipeline applies exactly AddRoundKey with round-key block 0; then rounds 1
to 9 in order, each SubBytes, ShiftRows, MixColumns, AddRoundKey with
round-key block r; and finally SubBytes, ShiftRows, AddRoundKey with
round-key block 10, with no MixColumns in the final round. -/
theorem encryptBlock_follows_round_schedule :
    ∀ (expanded_key block : List Nat),
      encryptBlock expanded_key block = encryptBlockSpec expanded_key block :=
  fun _ _ => rfl

/-- Claim C3: for every 16-byte key, key expansion follows the Rijndael
schedule on 4-byte words: words 0-3 are the key verbatim; for each word
index w from 4 to 43, temp is word w-1, core-transformed (rotate left one,
S-box every byte, XOR only the first byte with Rcon, whose index starts at
1 and advances exactly once per core application, i.e. equals w/4) exactly
when w mod 4 = 0, and word w is word w-4 XOR temp. -/
theorem expandKey_follows_rijndael_schedule (key : List Nat) (h : key.length = 16) :
    expandKey key = specExpandedKey key := by
  have h4 := expandKeyAux_spec key h 40 4 (by omega)
  rw [specBytes_four key h] at h4
  rw [expandKey, specExpandedKey]
  exact h4

/-- Witness for claim C3 at the all-zero key. -/
theorem expandKey_follows_rijndael_schedule_witness :
    (List.replicate 16 0).length = 16 ∧
      expandKey (List.replicate 16 0) = specExpandedKey (List.replicate 16 0) :=
  ⟨by decide, expandKey_follows_rijndael_schedule (List.replicate 16 0) (by decide)⟩

/-- Claim C4: for every 16-byte key, the expanded key is exactly 176 bytes
(11 round-key blocks of 16 bytes) and its first 16 bytes equal the input
key exactly. -/
theorem expandKey_length_and_head (key : List Nat) (h : key.length = 16) :
    (expandKey key).length = 176 ∧ (expandKey key).take 16 = key := by
  constructor
  · rw [expandKey, expandKeyAux_length]
    omega
  · rw [expandKey]
    have ht := take_expandKeyAux 40 key 1 16 (by omega)
    rw [ht, List.take_of_length_le (by omega)]

/-- Witness for claim C4 at the key `0, 1, ..., 15`. -/
theorem expandKey_length_and_head_witness :
    (List.range 16).length = 16 ∧
      ((expandKey (List.range 16)).length = 176 ∧
        (expandKey (List.range 16)).take 16 = List.range 16) :=
  ⟨by decide, expandKey_length_and_head (List.range 16) (by decide)⟩

/-- Claim C5: for every byte-valued state, MixColumns replaces each column r
by the column whose bytes are `2·r[0] ⊕ 3·r[1] ⊕ r[2] ⊕ r[3]` and its
cyclic shifts, with GF(2^8) doubling `(x<<1) XOR (0x1B if high bit set)`
and tripling doubling-XOR-original. -/
theorem mixColumns_column_formula (s : List (List Nat))
    (hb : ∀ row ∈ s, ∀ x ∈ row, x < 256) :
    ∀ i : Fin 4, stateCol (mixColumns s) i.val = specMixColumn (stateCol s i.val) := by
  intro i
  have key : stateCol (mixColumns s) i.val = mixSingleColumn (stateCol s i.val) := by
    fin_cases i <;> rfl
  rw [key]
  exact mixSingleColumn_spec _ (stateCol_bytes_lt s hb i.val)

/-- Witness for claim C5 at a concrete state with high-bit bytes. -/
theorem mixColumns_column_formula_witness :
    (∀ row ∈ [[0, 1, 2, 128], [4, 5, 6, 7], [8, 9, 10, 255], [12, 13, 14, 15]],
      ∀ x ∈ row, x < 256) ∧
    (∀ i : Fin 4,
      stateCol (mixColumns [[0, 1, 2, 128], [4, 5, 6, 7], [8, 9, 10, 255], [12, 13, 14, 15]])
          i.val =
        specMixColumn
          (stateCol [[0, 1, 2, 128], [4, 5, 6, 7], [8, 9, 10, 255], [12, 13, 14, 15]] i.val)) :=
  ⟨by decide, mixColumns_column_formula _ (by decide)⟩

/-- Claim C6: on every state with 4-byte rows, ShiftRows leaves row 0
unchanged and rotates row i cyclically left by i positions, for all four
rows in the same direction. -/
theorem shiftRows_row_rotations (s : List (List Nat))
    (h : ∀ i : Fin 4, (s.getD i.val []).length = 4) :
    (shiftRows s).getD 0 [] = s.getD 0 [] ∧
    ∀ i : Fin 4, (shiftRows s).getD i.val [] = (s.getD i.val []).rotateLeft i.val := by
  obtain ⟨a0, b0, c0, d0, e0⟩ :=
    exists_four _ (show (s.getD 0 []).length = 4 from h ⟨0, by omega⟩)
  obtain ⟨a1, b1, c1, d1, e1⟩ :=
    exists_four _ (show (s.getD 1 []).length = 4 from h ⟨1, by omega⟩)
  obtain ⟨a2, b2, c2, d2, e2⟩ :=
    exists_four _ (show (s.getD 2 []).length = 4 from h ⟨2, by omega⟩)
  obtain ⟨a3, b3, c3, d3, e3⟩ :=
    exists_four _ (show (s.getD 3 []).length = 4 from h ⟨3, by omega⟩)
  simp only [List.getD_eq_getElem?_getD] at e0 e1 e2 e3
  refine ⟨by simp [shiftRows, List.getD_eq_getElem?_getD], ?_⟩
  intro i
  fin_cases i <;>
    simp [shiftRows, List.rotateLeft, List.getD_eq_getElem?_getD, e0, e1, e2, e3]

/-- Witness for claim C6 at a concrete state. -/
theorem shiftRows_row_rotations_witness :
    (∀ i : Fin 4,
      (([[1, 2, 3, 4], [5, 6, 7, 8], [9, 10, 11, 12], [13, 14, 15, 16]] :
          List (List Nat)).getD i.val []).length = 4) ∧
    ((shiftRows [[1, 2, 3, 4], [5, 6, 7, 8], [9, 10, 11, 12], [13, 14, 15, 16]]).getD 0 [] =
        ([[1, 2, 3, 4], [5, 6, 7, 8], [9, 10, 11, 12], [13, 14, 15, 16]] :
          List (List Nat)).getD 0 [] ∧
      ∀ i : Fin 4,
        (shiftRows [[1, 2, 3, 4], [5, 6, 7, 8], [9, 10, 11, 12], [13, 14, 15, 16]]).getD
            i.val [] =
          (([[1, 2, 3, 4], [5, 6, 7, 8], [9, 10, 11, 12], [13, 14, 15, 16]] :
              List (List Nat)).getD i.val []).rotateLeft i.val) :=
  ⟨by decide, shiftRows_row_rotations _ (by decide)⟩

/-- Claim C7: the block adapter is column-major — state row r, column c
holds block byte r + 4·c — and converting a 16-byte block to a state and
back yields the original block. -/
theorem state_block_adapter_roundtrip (b : List Nat) (hb : b.length = 16) :
    (∀ r c : Fin 4,
      ((populateState b).getD r.val []).getD c.val 0 = b.getD (r.val + 4 * c.val) 0) ∧
    populateOutput (populateState b) = b := by
  constructor
  · intro r c
    fin_cases r <;> fin_cases c <;> rfl
  · have step : populateOutput (populateState b) =
        (List.range 16).map (fun k => b.getD k 0) := by
      apply List.map_congr_left
      intro k hk
      have hk16 : k < 16 := by simpa using hk
      interval_cases k <;> rfl
    rw [step, map_getD_range 16 b hb]

/-- Witness for claim C7 at the block `0, 1, ..., 15`. -/
theorem state_block_adapter_roundtrip_witness :
    (List.range 16).length = 16 ∧
    ((∀ r c : Fin 4,
        ((populateState (List.range 16)).getD r.val []).getD c.val 0 =
          (List.range 16).getD (r.val + 4 * c.val) 0) ∧
      populateOutput (populateState (List.range 16)) = List.range 16) :=
  ⟨by decide, state_block_adapter_roundtrip (List.range 16) (by decide)⟩

/-- Claim C8: for every 16-byte key and 16-byte blocks B1 and B2, running
the program on the stream key ∥ B1 ∥ B2 emits Enc(key,B1) ∥ Enc(key,B2):
each ciphertext block depends only on the key and its own plaintext block,
in input order. -/
theorem ecb_block_independence (key b1 b2 : List Nat) (hk : key.length = 16)
    (h1 : b1.length = 16) (h2 : b2.length = 16) :
    processStream (key ++ (b1 ++ b2)) = aesEncrypt key b1 ++ aesEncrypt key b2 := by
  rw [processStream, List.take_left' hk, List.drop_left' hk]
  rw [chunkBlocks_cons _ (by rw [List.length_append]; omega)]
  rw [List.take_left' h1, List.drop_left' h1]
  rw [chunkBlocks_cons _ (by omega)]
  rw [List.take_of_length_le (by omega)]
  rw [List.drop_eq_nil_iff.mpr (by omega)]
  rw [chunkBlocks_nil [] (by simp)]
  simp

/-- Witness for claim C8 at concrete key and blocks. -/
theorem ecb_block_independence_witness :
    (List.range 16).length = 16 ∧ (List.replicate 16 0).length = 16 ∧
      (List.replicate 16 255).length = 16 ∧
      processStream (List.range 16 ++ (List.replicate 16 0 ++ List.replicate 16 255)) =
        aesEncrypt (List.range 16) (List.replicate 16 0) ++
          aesEncrypt (List.range 16) (List.replicate 16 255) :=
  ⟨by decide, by decide, by decide,
    ecb_block_independence (List.range 16) (List.replicate 16 0) (List.replicate 16 255)
      (by decide) (by decide) (by decide)⟩

/-- Claim C9: when the bytes after the 16-byte key do not form a whole
number of 16-byte blocks, the program's output is the same as on the input
truncated to its complete blocks, and consists of exactly 16 bytes per
complete block — the trailing partial block produces no output bytes and no
error. -/
theorem trailing_partial_block_ignored (input : List Nat) (_hk : 16 ≤ input.length)
    (_hfrag : (input.length - 16) % 16 ≠ 0) :
    processStream input =
      processStream (input.take (16 + 16 * ((input.length - 16) / 16))) ∧
    (processStream input).length = 16 * ((input.length - 16) / 16) := by
  have hdl : (input.drop 16).length = input.length - 16 := by simp
  constructor
  · have e1 : (input.take (16 + 16 * ((input.length - 16) / 16))).take 16 = input.take 16 := by
      rw [List.take_take]
      congr 1
      omega
    have e2 : (input.take (16 + 16 * ((input.length - 16) / 16))).drop 16 =
        (input.drop 16).take (16 * ((input.drop 16).length / 16)) := by
      rw [List.drop_take]
      congr 1
      rw [hdl]
      omega
    simp only [processStream, e1, e2]
    rw [chunkBlocks_take_aux (input.drop 16).length (input.drop 16) (Nat.le_refl _)]
  · rw [processStream, flatten_map_aes_length, chunkBlocks_length, hdl]

/-- Witness for claim C9 at a 17-byte stream (one trailing byte after the key). -/
theorem trailing_partial_block_ignored_witness :
    16 ≤ (List.replicate 17 3).length ∧
      (((List.replicate 17 3).length - 16) % 16 ≠ 0 ∧
        (processStream (List.replicate 17 3) =
            processStream ((List.replicate 17 3).take
              (16 + 16 * (((List.replicate 17 3).length - 16) / 16))) ∧
          (processStream (List.replicate 17 3)).length =
            16 * (((List.replicate 17 3).length - 16) / 16))) :=
  ⟨by decide, by decide,
    trailing_partial_block_ignored (List.replicate 17 3) (by decide) (by decide)⟩

/-- Claim C10: AddRoundKey is an involution — XORing the same round-key
matrix into a 4×4 state twice returns the original state. -/
theorem addRoundKey_involution (s k : List (List Nat)) (hs : s.length = 4)
    (hrow : ∀ r ∈ s, r.length = 4) :
    addRoundKey (addRoundKey s k) k = s := by
  obtain ⟨r0, r1, r2, r3, rfl⟩ :
      ∃ r0 r1 r2 r3, s = [r0, r1, r2, r3] := by
    cases s with
    | nil => simp at hs
    | cons x0 s =>
      cases s with
      | nil => simp at hs
      | cons x1 s =>
        cases s with
        | nil => simp at hs
        | cons x2 s =>
          cases s with
          | nil => simp at hs
          | cons x3 s =>
            cases s with
            | nil => exact ⟨x0, x1, x2, x3, rfl⟩
            | cons x4 s => simp at hs
  obtain ⟨a0, b0, c0, d0, rfl⟩ := exists_four r0 (hrow r0 (by simp))
  obtain ⟨a1, b1, c1, d1, rfl⟩ := exists_four r1 (hrow r1 (by simp))
  obtain ⟨a2, b2, c2, d2, rfl⟩ := exists_four r2 (hrow r2 (by simp))
  obtain ⟨a3, b3, c3, d3, rfl⟩ := exists_four r3 (hrow r3 (by simp))
  simp [addRoundKey, show List.range 4 = [0, 1, 2, 3] from rfl, List.getD,
    Nat.xor_assoc, Nat.xor_self, Nat.xor_zero]

/-- Witness for claim C10 at a concrete state and round key. -/
theorem addRoundKey_involution_witness :
    ([[1, 2, 3, 4], [5, 6, 7, 8], [9, 10, 11, 12], [13, 14, 255, 128]] :
        List (List Nat)).length = 4 ∧
      ((∀ r ∈ [[1, 2, 3, 4], [5, 6, 7, 8], [9, 10, 11, 12], [13, 14, 255, 128]],
          r.length = 4) ∧
        addRoundKey
            (addRoundKey [[1, 2, 3, 4], [5, 6, 7, 8], [9, 10, 11, 12], [13, 14, 255, 128]]
              [[255, 0, 1, 2], [3, 4, 5, 6], [7, 8, 9, 10], [11, 12, 13, 14]])
            [[255, 0, 1, 2], [3, 4, 5, 6], [7, 8, 9, 10], [11, 12, 13, 14]] =
          [[1, 2, 3, 4], [5, 6, 7, 8], [9, 10, 11, 12], [13, 14, 255, 128]]) :=
  ⟨by decide, by decide,
    addRoundKey_involution _ _ (by decide) (by decide)⟩

end Aes
